import Mathlib

/-!
Shallow embedding of the asynchronous job progress/idempotency protocol of the
sales-roleplay repository (reference-check and audio-analysis Lambda handlers),
together with proofs about the spec's claims.

Python dictionaries/JSON payloads are modelled by the `Val` type, DynamoDB items
of the session-feedback table by `Item` (one fixed session; the table is the
list of this session's items in `createdAt`-descending order, as the
`ScanIndexForward=False` queries return them).  Wall-clock time is ℚ seconds;
ISO-8601 parsing (`datetime.fromisoformat`) is an external collaborator and is
passed in as a `String → Option ℚ` parameter.  Store failures are injected via
explicit `Bool`/`Except` parameters standing for the `try/except` outcomes.
-/

/-- Python/JSON-like values: None, bool, int, float, Decimal, str, list, dict. -/
inductive Val where
  | vnull : Val
  | vbool : Bool → Val
  | vint : Int → Val
  | vfloat : ℚ → Val
  | vdec : ℚ → Val
  | vstr : String → Val
  | vlist : List Val → Val
  | vdict : List (String × Val) → Val

/-- Python truthiness of a `Val` (`if x:`). -/
def truthy : Val → Bool
  | .vnull => false
  | .vbool b => b
  | .vint n => n != 0
  | .vfloat q => q != 0
  | .vdec q => q != 0
  | .vstr s => s ≠ ""
  | .vlist xs => ¬ xs.isEmpty
  | .vdict kvs => ¬ kvs.isEmpty

mutual

/-- Boolean equality on values (to decide concrete runs). -/
def valBEq : Val → Val → Bool
  | .vnull, .vnull => true
  | .vbool a, .vbool b => a == b
  | .vint a, .vint b => a == b
  | .vfloat a, .vfloat b => a == b
  | .vdec a, .vdec b => a == b
  | .vstr a, .vstr b => a == b
  | .vlist xs, .vlist ys => valsBEq xs ys
  | .vdict xs, .vdict ys => kvsBEq xs ys
  | _, _ => false

/-- Boolean equality on value lists. -/
def valsBEq : List Val → List Val → Bool
  | [], [] => true
  | x :: xs, y :: ys => valBEq x y && valsBEq xs ys
  | _, _ => false

/-- Boolean equality on key-value lists. -/
def kvsBEq : List (String × Val) → List (String × Val) → Bool
  | [], [] => true
  | (k, v) :: xs, (k', v') :: ys => k == k' && valBEq v v' && kvsBEq xs ys
  | _, _ => false

end

mutual

/-- `valBEq` decides equality. -/
theorem valBEq_iff : ∀ a b : Val, valBEq a b = true ↔ a = b
  | .vnull, b => by cases b <;> simp [valBEq]
  | .vbool x, b => by cases b <;> simp [valBEq]
  | .vint x, b => by cases b <;> simp [valBEq]
  | .vfloat x, b => by cases b <;> simp [valBEq]
  | .vdec x, b => by cases b <;> simp [valBEq]
  | .vstr x, b => by cases b <;> simp [valBEq]
  | .vlist xs, b => by
    cases b <;> simp [valBEq]
    exact valsBEq_iff xs _
  | .vdict kvs, b => by
    cases b <;> simp [valBEq]
    exact kvsBEq_iff kvs _

/-- `valsBEq` decides equality. -/
theorem valsBEq_iff : ∀ xs ys : List Val, valsBEq xs ys = true ↔ xs = ys
  | [], [] => by simp [valsBEq]
  | [], _ :: _ => by simp [valsBEq]
  | _ :: _, [] => by simp [valsBEq]
  | x :: xs, y :: ys => by
    simp [valsBEq, Bool.and_eq_true, valBEq_iff x y, valsBEq_iff xs ys]

/-- `kvsBEq` decides equality. -/
theorem kvsBEq_iff : ∀ xs ys : List (String × Val), kvsBEq xs ys = true ↔ xs = ys
  | [], [] => by simp [kvsBEq]
  | [], _ :: _ => by simp [kvsBEq]
  | _ :: _, [] => by simp [kvsBEq]
  | (k, v) :: xs, (k', v') :: ys => by
    simp [kvsBEq, Bool.and_eq_true, valBEq_iff v v', kvsBEq_iff xs ys, Prod.ext_iff,
      and_assoc]

end

instance : DecidableEq Val := fun a b => decidable_of_iff _ (valBEq_iff a b)

mutual

/-- Embedding of `save_handler.convert_float_to_decimal`: floats become
`Decimal(str(x))` (same rational value), dicts and lists are mapped
recursively, every other value is returned unchanged. -/
def convert_float_to_decimal : Val → Val
  | .vfloat q => .vdec q
  | .vdict kvs => .vdict (convertKVs kvs)
  | .vlist xs => .vlist (convertVs xs)
  | .vnull => .vnull
  | .vbool b => .vbool b
  | .vint n => .vint n
  | .vdec q => .vdec q
  | .vstr s => .vstr s

/-- List part of `convert_float_to_decimal` (the list comprehension). -/
def convertVs : List Val → List Val
  | [] => []
  | x :: xs => convert_float_to_decimal x :: convertVs xs

/-- Dict part of `convert_float_to_decimal` (the dict comprehension). -/
def convertKVs : List (String × Val) → List (String × Val)
  | [] => []
  | (k, v) :: rest => (k, convert_float_to_decimal v) :: convertKVs rest

end

/-- Structural skeleton of a value: dict keys and list lengths/order are kept,
leaf values are erased. -/
inductive Skel where
  | leaf : Skel
  | sdict : List (String × Skel) → Skel
  | slist : List Skel → Skel

mutual

/-- Compute the structural skeleton of a value (floats erased to `leaf` so that
`convert_float_to_decimal` is a skeleton-preserving map). -/
def skeleton : Val → Skel
  | .vdict kvs => .sdict (skeletonKVs kvs)
  | .vlist xs => .slist (skeletonVs xs)
  | _ => .leaf

/-- List part of `skeleton`. -/
def skeletonVs : List Val → List Skel
  | [] => []
  | x :: xs => skeleton x :: skeletonVs xs

/-- Dict part of `skeleton`. -/
def skeletonKVs : List (String × Val) → List (String × Skel)
  | [] => []
  | (k, v) :: rest => (k, skeleton v) :: skeletonKVs rest

end

mutual

/-- Check that a value contains no float anywhere. -/
def noFloat : Val → Bool
  | .vfloat _ => false
  | .vdict kvs => noFloatKVs kvs
  | .vlist xs => noFloatVs xs
  | _ => true

/-- List part of `noFloat`. -/
def noFloatVs : List Val → Bool
  | [] => true
  | x :: xs => noFloat x && noFloatVs xs

/-- Dict part of `noFloat`. -/
def noFloatKVs : List (String × Val) → Bool
  | [] => true
  | (_, v) :: rest => noFloat v && noFloatKVs rest

end

mutual

/-- Check whether the string leaf `vstr s` occurs anywhere inside a value. -/
def occursStr (s : String) : Val → Bool
  | .vstr t => t == s
  | .vdict kvs => occursStrKVs s kvs
  | .vlist xs => occursStrVs s xs
  | _ => false

/-- List part of `occursStr`. -/
def occursStrVs (s : String) : List Val → Bool
  | [] => false
  | x :: xs => occursStr s x || occursStrVs s xs

/-- Dict part of `occursStr`. -/
def occursStrKVs (s : String) : List (String × Val) → Bool
  | [] => false
  | (_, v) :: rest => occursStr s v || occursStrKVs s rest

end

/-- Dictionary lookup, `d.get(k)`: first binding of the key, if any. -/
def pget (p : List (String × Val)) (k : String) : Option Val :=
  (p.find? (fun kv => kv.1 == k)).map (fun kv => kv.2)

/-- Keys of a payload dictionary. -/
def pkeys (p : List (String × Val)) : List String := p.map (fun kv => kv.1)

/-- Python `d.get(k)` rendered as a `Val` (missing key gives `None`). -/
def pgetV (p : List (String × Val)) (k : String) : Val :=
  (pget p k).getD .vnull

/-- Truthiness of `d.get(k)` (used by the handlers' `all([...])` validations). -/
def ptruthy (p : List (String × Val)) (k : String) : Bool :=
  truthy (pgetV p k)

/-- Merge `{**event, k: v}`: replace the binding if the key exists (keeping its
position, as Python dict update does), otherwise append the new binding. -/
def pset (p : List (String × Val)) (k : String) (v : Val) : List (String × Val) :=
  if p.any (fun kv => kv.1 == k) then
    p.map (fun kv => if kv.1 == k then (k, v) else kv)
  else
    p ++ [(k, v)]

/-- One DynamoDB item of the session-feedback table (fields the code reads or
writes; the session is fixed, so `sessionId` is not carried). -/
structure Item where
  createdAt : Option String := none
  dataType : String := ""
  referenceCheckData : Option Val := none
  audioAnalysisData : Option Val := none
  userId : Option String := none
  scenarioId : Option String := none
  language : Option String := none
  status : Option String := none
  currentStep : Option String := none
  audioKey : Option String := none
  transcribeJobName : Option String := none
  transcribeStatus : Option String := none
  transcriptFileUri : Option String := none
  errorMsg : Option String := none
  errStep : Option String := none
  updatedAt : Option String := none
  expireAt : Option Int := none
  deriving DecidableEq

/-- Query of the fixed session filtered on `dataType`, in the store's
`createdAt`-descending order (the order the table list is kept in). -/
def queryByType (tbl : List Item) (d : String) : List Item :=
  tbl.filter (fun it => it.dataType == d)

/-- DynamoDB `put_item`: overwrite the item with the same primary key
`(sessionId, createdAt)` if present, else insert the (newest) item in front. -/
def putItem (tbl : List Item) (it : Item) : List Item :=
  if tbl.any (fun x => x.createdAt == it.createdAt) then
    tbl.map (fun x => if x.createdAt == it.createdAt then it else x)
  else
    it :: tbl

/-- Replace every occurrence of the character `Z` by `+00:00` (character-level
embedding of `str.replace`; the pattern is a single character, so occurrences
cannot overlap). -/
def replaceZlist : List Char → List Char
  | [] => []
  | c :: cs =>
    if c == 'Z' then '+' :: '0' :: '0' :: ':' :: '0' :: '0' :: replaceZlist cs
    else c :: replaceZlist cs

/-- Embedding of `created_at.replace("Z", "+00:00")`. -/
def replaceZ (s : String) : String := ⟨replaceZlist s.data⟩

/-- Check whether `pat` is a prefix of `s` (over characters). -/
def startsWithChars : List Char → List Char → Bool
  | [], _ => true
  | _ :: _, [] => false
  | p :: ps, c :: cs => p == c && startsWithChars ps cs

/-- Check whether `pat` occurs as a contiguous substring of `s`
(Python's `pat in s` on strings, over characters). -/
def containsSub (pat : List Char) : List Char → Bool
  | [] => startsWithChars pat []
  | c :: cs => startsWithChars pat (c :: cs) || containsSub pat cs

/-- Truthiness of a Python optional value (`if x:` on a value that is either
`None` or a `Val`). -/
def optTruthy : Option Val → Bool
  | some v => truthy v
  | none => false

/-- Render a `Val` interpolated into an f-string (`str(x)`); the handlers only
ever interpolate strings and ints here. -/
def asStr : Val → String
  | .vstr s => s
  | .vint n => toString n
  | _ => "<value>"

/-- Dictionary lookup with default, `d.get(k, default)` (the default applies
only when the key is absent, as in Python). -/
def pgetD (p : List (String × Val)) (k : String) (d : Val) : Val :=
  (pget p k).getD d

namespace RefCheck

/-- Embedding of `referenceCheck.get_existing_reference_check`: latest
`reference-check` item's `referenceCheckData`, `none` when the query raises,
finds nothing, or the item lacks the field. -/
def get_existing_reference_check (tbl : List Item) (qFail : Bool) : Option Val :=
  if qFail then none
  else
    match (queryByType tbl "reference-check").head? with
    | some it => it.referenceCheckData
    | none => none

/-- Embedding of `delete_reference_check_progress_flag`: query all
`reference-check-in-progress` items and delete each by its
`(sessionId, createdAt)` key; any query failure is swallowed. -/
def delete_reference_check_progress_flag (tbl : List Item) (qFail : Bool) : List Item :=
  if qFail then tbl
  else
    let keys := (queryByType tbl "reference-check-in-progress").filterMap (fun it => it.createdAt)
    tbl.filter (fun it =>
      match it.createdAt with
      | some c => ¬ keys.contains c
      | none => true)

/-- Embedding of `is_reference_check_in_progress` (lines 314-376): inspect the
latest `reference-check-in-progress` item; a record strictly older than 600
seconds is stale (it is deleted and `False` returned); an unparseable or
missing timestamp counts as in progress; a store error counts as not in
progress.  Returns the flag together with the possibly-modified table. -/
def is_reference_check_in_progress (parse : String → Option ℚ) (now : ℚ)
    (tbl : List Item) (qFail delFail : Bool) : Bool × List Item :=
  if qFail then (false, tbl)
  else
    match (queryByType tbl "reference-check-in-progress").head? with
    | none => (false, tbl)
    | some it =>
      match it.createdAt with
      | some s =>
        if s = "" then (true, tbl)
        else
          match parse (replaceZ s) with
          | some t =>
            if now - t > 600 then (false, delete_reference_check_progress_flag tbl delFail)
            else (true, tbl)
          | none => (true, tbl)
      | none => (true, tbl)

/-- The `reference-check-in-progress` item written by
`set_reference_check_progress_flag` (TTL one hour). -/
def progressFlagItem (nowStr : String) (nowEpoch : Int) : Item :=
  { createdAt := some nowStr, dataType := "reference-check-in-progress",
    status := some "processing", expireAt := some (nowEpoch + 3600) }

/-- Embedding of `set_reference_check_progress_flag`: best-effort put of the
in-progress marker; a put failure is swallowed. -/
def set_reference_check_progress_flag (tbl : List Item) (nowStr : String)
    (nowEpoch : Int) (putFail : Bool) : List Item :=
  if putFail then tbl else putItem tbl (progressFlagItem nowStr nowEpoch)

/-- The `reference-check` result item written by `save_reference_check_result`
(TTL 30 days). -/
def resultItem (nowStr : String) (nowEpoch : Int) (v : Val) : Item :=
  { createdAt := some nowStr, dataType := "reference-check",
    referenceCheckData := some v, expireAt := some (nowEpoch + 30 * 24 * 3600) }

/-- Embedding of `save_reference_check_result`: best-effort put of the result
item; a put failure is swallowed (the result is still returned). -/
def save_reference_check_result (tbl : List Item) (nowStr : String)
    (nowEpoch : Int) (v : Val) (putFail : Bool) : List Item :=
  if putFail then tbl else putItem tbl (resultItem nowStr nowEpoch v)

/-- Decision of the idempotency guard prefix of `get_reference_check`. -/
inductive Decision where
  | alreadyDone : Val → Decision
  | alreadyInProgress : Decision
  | proceed : Decision
  deriving DecidableEq

/-- Guard prefix of `get_reference_check` (lines 508-535): return an existing
truthy result, else 409 when a live in-progress flag exists, else write a fresh
in-progress flag and proceed. -/
def checkAndAcquire (parse : String → Option ℚ) (now : ℚ) (nowStr : String)
    (nowEpoch : Int) (qResFail qProgFail delFail putFail : Bool)
    (tbl : List Item) : Decision × List Item :=
  let existing := get_existing_reference_check tbl qResFail
  if optTruthy existing then (.alreadyDone (existing.getD .vnull), tbl)
  else
    let pr := is_reference_check_in_progress parse now tbl qProgFail delFail
    if pr.1 then (.alreadyInProgress, pr.2)
    else (.proceed, set_reference_check_progress_flag pr.2 nowStr nowEpoch putFail)

/-- Outcome of the expensive part of the endpoint (scenario lookup, message
fetch and the per-message agent loop), which is external to the guard: it
raises, finds no user messages, or produces the aggregated result. -/
inductive RefWork where
  | failure : String → RefWork
  | emptyMessages : RefWork
  | results : Val → RefWork

/-- The `empty_result` constant returned when a session has no user messages. -/
def emptyResult : Val :=
  .vdict [("messages", .vlist []),
          ("summary", .vdict [("totalMessages", .vint 0), ("checkedMessages", .vint 0)])]

/-- Response of the `/referenceCheck/sessionId` endpoint: a 200 JSON body, a
409 conflict, or a propagated exception. -/
inductive RefOutcome where
  | okBody : Val → RefOutcome
  | conflict409 : RefOutcome
  | raised : String → RefOutcome
  deriving DecidableEq

/-- Embedding of the `get_reference_check` endpoint: guard first, then the
expensive work; on failure the in-progress flag is deleted and the exception
re-raised; an empty session saves and returns `emptyResult` (without deleting
the flag); otherwise the aggregated result is saved, the flag deleted, and the
result returned.  `saveNowStr`/`saveNowEpoch` are the (later) wall-clock values
taken when the result is saved. -/
def get_reference_check (parse : String → Option ℚ) (now : ℚ) (nowStr : String)
    (nowEpoch : Int) (saveNowStr : String) (saveNowEpoch : Int)
    (qResFail qProgFail delFail putFail saveFail delFail2 : Bool)
    (work : RefWork) (tbl : List Item) : RefOutcome × List Item :=
  match checkAndAcquire parse now nowStr nowEpoch qResFail qProgFail delFail putFail tbl with
  | (.alreadyDone v, t) => (.okBody v, t)
  | (.alreadyInProgress, t) => (.conflict409, t)
  | (.proceed, t) =>
    match work with
    | .failure e => (.raised e, delete_reference_check_progress_flag t delFail2)
    | .emptyMessages =>
      (.okBody emptyResult, save_reference_check_result t saveNowStr saveNowEpoch emptyResult saveFail)
    | .results v =>
      let t2 := save_reference_check_result t saveNowStr saveNowEpoch v saveFail
      (.okBody v, delete_reference_check_progress_flag t2 delFail2)

end RefCheck

namespace AudioApi

/-- Embedding of `audioAnalysis.get_existing_analysis_result`: the latest
`audio-analysis-result` item, `none` on a store error or when absent. -/
def get_existing_analysis_result (tbl : List Item) (qFail : Bool) : Option Item :=
  if qFail then none else (queryByType tbl "audio-analysis-result").head?

/-- Embedding of `audioAnalysis.get_analysis_progress` (lines 430-479): the
latest `audio-analysis-in-progress` item; a record strictly older than 10800
seconds is treated as invalid (`none`, with no deletion); an unparseable or
missing timestamp counts as in progress; a store error gives `none`. -/
def get_analysis_progress (parse : String → Option ℚ) (now : ℚ)
    (tbl : List Item) (qFail : Bool) : Option Item :=
  if qFail then none
  else
    match (queryByType tbl "audio-analysis-in-progress").head? with
    | none => none
    | some it =>
      match it.createdAt with
      | some s =>
        if s = "" then some it
        else
          match parse (replaceZ s) with
          | some t => if now - t > 10800 then none else some it
          | none => some it
      | none => some it

/-- Embedding of `is_analysis_in_progress`. -/
def is_analysis_in_progress (parse : String → Option ℚ) (now : ℚ)
    (tbl : List Item) (qFail : Bool) : Bool :=
  (get_analysis_progress parse now tbl qFail).isSome

/-- The fixed 200 body returned by `start_audio_analysis` when a result already
exists (it does not embed the stored result). -/
def completedBody (sid : String) : Val :=
  .vdict [("success", .vbool true), ("sessionId", .vstr sid),
          ("status", .vstr "COMPLETED"), ("message", .vstr "分析は既に完了しています")]

/-- The 200 body returned by `start_audio_analysis` after starting the Step
Functions execution. -/
def startedBody (sid arn : String) : Val :=
  .vdict [("success", .vbool true), ("sessionId", .vstr sid),
          ("executionArn", .vstr arn), ("status", .vstr "STARTED")]

/-- Response of the start endpoint: a 200 JSON body, a 409 conflict, or a
propagated exception. -/
inductive StartOutcome where
  | okBody : Val → StartOutcome
  | conflict409 : StartOutcome
  | raised : String → StartOutcome
  deriving DecidableEq

/-- Embedding of the `start_audio_analysis` endpoint (lines 156-261): an
existing result short-circuits with the fixed completed body; a live
in-progress flag gives 409; otherwise the request body is validated and the
Step Functions execution started (`sfnStart` is its outcome).  The endpoint
itself never mutates the table. -/
def start_audio_analysis (parse : String → Option ℚ) (now : ℚ) (sid : String)
    (body : List (String × Val)) (sfnStart : Except String String)
    (qResFail qProgFail : Bool) (tbl : List Item) : StartOutcome × List Item :=
  match get_existing_analysis_result tbl qResFail with
  | some _ => (.okBody (completedBody sid), tbl)
  | none =>
    if is_analysis_in_progress parse now tbl qProgFail then (.conflict409, tbl)
    else
      if ptruthy body "audioKey" && ptruthy body "scenarioId" then
        match sfnStart with
        | .ok arn => (.okBody (startedBody sid arn), tbl)
        | .error m => (.raised ("音声分析開始に失敗しました: " ++ m), tbl)
      else
        (.raised "Unexpected error during audio analysis: audioKey、scenarioIdが必要です", tbl)

/-- Render an `Item` as the JSON dict the status endpoint embeds under
`progress` (only the bindings the item actually carries). -/
def itemToVal (it : Item) : Val :=
  .vdict (
    (match it.createdAt with | some s => [("createdAt", Val.vstr s)] | none => []) ++
    [("dataType", Val.vstr it.dataType)] ++
    (match it.userId with | some s => [("userId", Val.vstr s)] | none => []) ++
    (match it.scenarioId with | some s => [("scenarioId", Val.vstr s)] | none => []) ++
    (match it.language with | some s => [("language", Val.vstr s)] | none => []) ++
    (match it.status with | some s => [("status", Val.vstr s)] | none => []) ++
    (match it.currentStep with | some s => [("currentStep", Val.vstr s)] | none => []) ++
    (match it.audioKey with | some s => [("audioKey", Val.vstr s)] | none => []) ++
    (match it.transcribeJobName with | some s => [("transcribeJobName", Val.vstr s)] | none => []) ++
    (match it.updatedAt with | some s => [("updatedAt", Val.vstr s)] | none => []) ++
    (match it.referenceCheckData with | some v => [("referenceCheckData", v)] | none => []) ++
    (match it.audioAnalysisData with | some v => [("audioAnalysisData", v)] | none => []) ++
    (match it.expireAt with | some n => [("expireAt", Val.vint n)] | none => []))

/-- Response of the status / results endpoints: a 200 JSON body or one of the
raised error classes. -/
inductive ApiOutcome where
  | okBody : Val → ApiOutcome
  | notFound : String → ApiOutcome
  | badRequest : String → ApiOutcome
  deriving DecidableEq

/-- Render an optional string field as a JSON value (`None` when absent). -/
def optV : Option String → Val
  | some s => .vstr s
  | none => .vnull

/-- Embedding of the `get_analysis_status` endpoint (lines 263-332): an
existing result owned by another user raises not-found; an owned result gives
the fixed completed body; else an owned progress record reports the current
step (embedding the progress item); else `NOT_STARTED`. -/
def get_analysis_status (parse : String → Option ℚ) (now : ℚ) (sid userId : String)
    (qResFail qProgFail : Bool) (tbl : List Item) : ApiOutcome :=
  if sid = "" then .badRequest "セッションIDが必要です"
  else
    match get_existing_analysis_result tbl qResFail with
    | some it =>
      if it.userId == some userId then
        .okBody (.vdict [("success", .vbool true), ("sessionId", .vstr sid),
                         ("status", .vstr "COMPLETED"), ("hasResult", .vbool true)])
      else .notFound ("セッションが見つかりません: " ++ sid)
    | none =>
      match get_analysis_progress parse now tbl qProgFail with
      | some p =>
        if p.userId == some userId then
          .okBody (.vdict [("success", .vbool true), ("sessionId", .vstr sid),
                           ("status", .vstr (p.status.getD "IN_PROGRESS")),
                           ("currentStep", .vstr (p.currentStep.getD "UNKNOWN")),
                           ("hasResult", .vbool false),
                           ("progress", itemToVal p)])
        else .notFound ("セッションが見つかりません: " ++ sid)
      | none =>
        .okBody (.vdict [("success", .vbool true), ("sessionId", .vstr sid),
                         ("status", .vstr "NOT_STARTED"), ("hasResult", .vbool false)])

/-- Embedding of the `get_analysis_results` endpoint (lines 334-382): a missing
result raises not-found, a result owned by another user raises not-found, an
owned result returns the stored analysis data. -/
def get_analysis_results (sid userId : String) (qResFail : Bool)
    (tbl : List Item) : ApiOutcome :=
  if sid = "" then .badRequest "セッションIDが必要です"
  else
    match get_existing_analysis_result tbl qResFail with
    | none => .notFound ("分析結果が見つかりません: " ++ sid)
    | some it =>
      if it.userId == some userId then
        .okBody (.vdict [("success", .vbool true), ("sessionId", .vstr sid),
                         ("audioAnalysis", (it.audioAnalysisData).getD .vnull),
                         ("scenarioId", optV it.scenarioId),
                         ("language", optV it.language),
                         ("createdAt", optV it.createdAt)])
      else .notFound ("セッションが見つかりません: " ++ sid)

end AudioApi

namespace Pipeline

/-- Embedding of the `update_analysis_progress` helpers of the transcribe,
check and process handlers: overwrite the latest `audio-analysis-in-progress`
item with a new `currentStep`/`updatedAt` (the transcribe handler's variant
additionally forces `status = IN_PROGRESS`, selected by `setStatus`) plus the
call site's `additional_data` fields.  `sidTruthy` is the guard on a usable
session id (a falsy id skips the update; in the transcribe variant the
equivalent query failure is swallowed); any store failure (`updFail`) is
swallowed, leaving the table unchanged. -/
def update_analysis_progress (tbl : List Item) (sidTruthy : Bool) (nowStr : String)
    (step : String) (setStatus : Bool) (additional : Item → Item)
    (updFail : Bool) : List Item :=
  if ¬ sidTruthy then tbl
  else if updFail then tbl
  else
    match (queryByType tbl "audio-analysis-in-progress").head? with
    | none => tbl
    | some it =>
      let it1 := { it with currentStep := some step, updatedAt := some nowStr }
      let it2 := if setStatus then { it1 with status := some "IN_PROGRESS" } else it1
      putItem tbl (additional it2)

/-- The `audio-analysis-in-progress` item written by `set_analysis_start_flag`
(TTL three hours). -/
def startFlagItem (nowStr : String) (nowEpoch : Int)
    (userId scenarioId language audioKey jobName : String) : Item :=
  { createdAt := some nowStr, dataType := "audio-analysis-in-progress",
    userId := some userId, scenarioId := some scenarioId, language := some language,
    audioKey := some audioKey, transcribeJobName := some jobName,
    status := some "STARTED", currentStep := some "START",
    expireAt := some (nowEpoch + 3 * 3600) }

/-- Embedding of `start_handler.set_analysis_start_flag`: best-effort put of
the in-progress marker; a put failure is swallowed. -/
def set_analysis_start_flag (tbl : List Item) (nowStr : String) (nowEpoch : Int)
    (userId scenarioId language audioKey jobName : String) (putFail : Bool) :
    List Item :=
  if putFail then tbl
  else putItem tbl (startFlagItem nowStr nowEpoch userId scenarioId language audioKey jobName)

/-- The error payload built by `start_handler`'s top-level `except` clause. -/
def startErrorPayload (event : List (String × Val)) (msg : String) :
    List (String × Val) :=
  [("success", .vbool false), ("error", .vstr msg),
   ("sessionId", pgetV event "sessionId"), ("errorType", .vstr "StartAnalysisError")]

/-- Embedding of `start_handler.lambda_handler`: validate the payload, check
the audio object (`headOk`) and the scenario (`scenarioFound`: found /
not found / store error), write the in-progress flag, and return a freshly
built success payload; every failure is caught and turned into the
`StartAnalysisError` payload. -/
def start_handler (nowStr : String) (nowEpoch : Int)
    (headOk : Except String Unit) (scenarioFound : Except String Bool)
    (putFail : Bool) (event : List (String × Val)) (tbl : List Item) :
    List (String × Val) × List Item :=
  if ¬ (ptruthy event "audioKey" && ptruthy event "sessionId" &&
        ptruthy event "scenarioId" && ptruthy event "userId") then
    (startErrorPayload event "audioKey, sessionId, scenarioId, userIdが必要です", tbl)
  else
    match headOk with
    | .error _ =>
      (startErrorPayload event
        ("音声ファイルが見つかりません: " ++ asStr (pgetV event "audioKey")), tbl)
    | .ok _ =>
      match scenarioFound with
      | .error m => (startErrorPayload event ("シナリオ検証に失敗しました: " ++ m), tbl)
      | .ok false =>
        (startErrorPayload event
          ("シナリオ検証に失敗しました: シナリオが見つかりません: " ++
            asStr (pgetV event "scenarioId")), tbl)
      | .ok true =>
        let sid := asStr (pgetV event "sessionId")
        let lang := asStr (pgetD event "language" (.vstr "ja"))
        let jobName := "audio-analysis-" ++ sid ++ "-" ++ toString nowEpoch
        let tbl2 := set_analysis_start_flag tbl nowStr nowEpoch
          (asStr (pgetV event "userId")) (asStr (pgetV event "scenarioId"))
          lang (asStr (pgetV event "audioKey")) jobName putFail
        ([("success", .vbool true), ("sessionId", pgetV event "sessionId"),
          ("audioKey", pgetV event "audioKey"), ("scenarioId", pgetV event "scenarioId"),
          ("language", pgetD event "language" (.vstr "ja")),
          ("userId", pgetV event "userId"),
          ("transcribeJobName", .vstr jobName), ("validated", .vbool true),
          ("startTime", .vstr nowStr)], tbl2)

/-- Embedding of `transcribe_handler.lambda_handler`: validate, start the
transcription job (`startJob`), record `TRANSCRIBING` progress, and merge the
new fields into the event; every failure is caught, an `ERROR` step recorded,
and the merged `TranscribeStartError` payload returned. -/
def transcribe_handler (bucket nowStr : String) (startJob : Except String Unit)
    (updFail : Bool) (event : List (String × Val)) (tbl : List Item) :
    List (String × Val) × List Item :=
  let sidT := ptruthy event "sessionId"
  let errOut := fun (msg : String) =>
    (pset (pset (pset event "success" (.vbool false)) "error" (.vstr msg))
      "errorType" (.vstr "TranscribeStartError"),
     update_analysis_progress tbl sidT nowStr "ERROR" true
       (fun it => { it with errorMsg := some msg, errStep := some "START_TRANSCRIBE" })
       updFail)
  if ¬ (sidT && ptruthy event "audioKey" && ptruthy event "transcribeJobName") then
    errOut "sessionId, audioKey, transcribeJobNameが必要です"
  else
    match startJob with
    | .error m => errOut m
    | .ok _ =>
      let jobName := asStr (pgetV event "transcribeJobName")
      let out :=
        pset (pset (pset event "jobStatus" (.vstr "IN_PROGRESS"))
          "outputLocation"
          (.vstr ("s3://" ++ bucket ++ "/transcripts/" ++ asStr (pgetV event "sessionId") ++ ".json")))
          "transcribeStartTime" (.vstr nowStr)
      (out,
       update_analysis_progress tbl sidT nowStr "TRANSCRIBING" true
         (fun it => { it with transcribeJobName := some jobName,
                              transcribeStatus := some "IN_PROGRESS" })
         updFail)

/-- External transcription-job status as seen by `check_handler`. -/
structure JobInfo where
  status : String
  transcriptFileUri : Option String := none
  completionTimeStr : Option String := none
  failureReason : Option String := none
  startTimeStr : Option String := none

/-- Outcome of `get_transcription_job`: a job description, a
`BadRequestException` (job not found), or another error. -/
inductive JobRes where
  | ok : JobInfo → JobRes
  | badRequest : String → JobRes
  | err : String → JobRes

/-- Embedding of `check_handler.lambda_handler`: poll the transcription job and
merge its status into the event.  A `BadRequestException` (missing job) returns
the merged event with `jobStatus = FAILED` and `errorType = JobNotFound` but
does not touch the `success` flag; any other failure is caught and returned as
the merged `TranscribeCheckError` payload with `success = false`. -/
def check_handler (nowStr : String) (getJob : JobRes) (updFail : Bool)
    (event : List (String × Val)) (tbl : List Item) :
    List (String × Val) × List Item :=
  let sidT := ptruthy event "sessionId"
  let exceptOut := fun (msg : String) =>
    (pset (pset (pset (pset event "success" (.vbool false)) "jobStatus" (.vstr "FAILED"))
      "error" (.vstr msg)) "errorType" (.vstr "TranscribeCheckError"),
     update_analysis_progress tbl sidT nowStr "ERROR" false
       (fun it => { it with errorMsg := some msg, errStep := some "CHECK_TRANSCRIBE" })
       updFail)
  if ¬ (sidT && ptruthy event "transcribeJobName") then
    exceptOut "sessionId, transcribeJobNameが必要です"
  else
    let jobName := asStr (pgetV event "transcribeJobName")
    match getJob with
    | .err m => exceptOut m
    | .badRequest _ =>
      let msg := "Transcribeジョブが見つかりません: " ++ jobName
      (pset (pset (pset event "jobStatus" (.vstr "FAILED")) "error" (.vstr msg))
        "errorType" (.vstr "JobNotFound"),
       update_analysis_progress tbl sidT nowStr "ERROR" false
         (fun it => { it with errorMsg := some msg, errStep := some "CHECK_TRANSCRIBE" })
         updFail)
    | .ok j =>
      let base := pset (pset event "jobStatus" (.vstr j.status)) "checkTime" (.vstr nowStr)
      if j.status == "COMPLETED" then
        let uri := j.transcriptFileUri.getD ""
        let out1 := pset base "transcriptFileUri" (.vstr uri)
        let out2 := match j.completionTimeStr with
          | some c => pset out1 "completionTime" (.vstr c)
          | none => out1
        (out2,
         update_analysis_progress tbl sidT nowStr "TRANSCRIBE_COMPLETED" false
           (fun it => { it with transcribeJobName := some jobName,
                                transcribeStatus := some "COMPLETED",
                                transcriptFileUri := some uri })
           updFail)
      else if j.status == "FAILED" then
        let fr := j.failureReason.getD "Unknown error"
        (pset base "failureReason" (.vstr fr),
         update_analysis_progress tbl sidT nowStr "ERROR" false
           (fun it => { it with transcribeJobName := some jobName,
                                transcribeStatus := some "FAILED",
                                errorMsg := some fr, errStep := some "TRANSCRIBE" })
           updFail)
      else
        let out := match j.startTimeStr with
          | some c => pset base "transcribeStartTime" (.vstr c)
          | none => base
        (out,
         update_analysis_progress tbl sidT nowStr "TRANSCRIBING" false
           (fun it => { it with transcribeJobName := some jobName,
                                transcribeStatus := some j.status })
           updFail)

/-- Embedding of `process_handler.lambda_handler`: record `ANALYZING`, download
the transcript (`download`), run the speaker analysis (`analyze`), and merge
`audioAnalysisResult` into the event; every failure is caught, an `ERROR` step
recorded, and the merged `AIAnalysisError` payload returned. -/
def process_handler (nowStr : String) (download analyze : Except String Val)
    (updFail : Bool) (event : List (String × Val)) (tbl : List Item) :
    List (String × Val) × List Item :=
  let sidT := ptruthy event "sessionId"
  let errOut := fun (msg : String) (t : List Item) =>
    (pset (pset (pset event "success" (.vbool false)) "error" (.vstr msg))
      "errorType" (.vstr "AIAnalysisError"),
     update_analysis_progress t sidT nowStr "ERROR" false
       (fun it => { it with errorMsg := some msg, errStep := some "AI_ANALYSIS" })
       updFail)
  if ¬ (sidT && ptruthy event "transcriptFileUri") then
    errOut "sessionId, transcriptFileUriが必要です" tbl
  else
    let jobName := asStr (pgetV event "transcribeJobName")
    let tbl1 := update_analysis_progress tbl sidT nowStr "ANALYZING" false
      (fun it => { it with transcribeJobName := some jobName,
                           transcribeStatus := some "COMPLETED" })
      updFail
    match download with
    | .error m => errOut ("転写結果のダウンロードに失敗しました: " ++ m) tbl1
    | .ok _ =>
      match analyze with
      | .error m => errOut ("AI分析処理に失敗しました: " ++ m) tbl1
      | .ok v =>
        (pset (pset event "audioAnalysisResult" v)
          "analysisCompletedTime" (.vstr nowStr), tbl1)

/-- Embedding of `save_handler.delete_analysis_progress_flag`: query all
`audio-analysis-in-progress` items and delete each by key; failures are
swallowed. -/
def delete_analysis_progress_flag (tbl : List Item) (qFail : Bool) : List Item :=
  if qFail then tbl
  else
    let keys := (queryByType tbl "audio-analysis-in-progress").filterMap (fun it => it.createdAt)
    tbl.filter (fun it =>
      match it.createdAt with
      | some c => ¬ keys.contains c
      | none => true)

/-- The `audio-analysis-result` item written by `save_analysis_result`
(TTL 180 days), with the analysis payload made decimal-safe. -/
def analysisResultItem (nowStr : String) (nowEpoch : Int)
    (userId scenarioId language : String) (analysisResult : Val) : Item :=
  { createdAt := some nowStr, dataType := "audio-analysis-result",
    userId := some userId, scenarioId := some scenarioId, language := some language,
    audioAnalysisData := some (convert_float_to_decimal analysisResult),
    expireAt := some (nowEpoch + 180 * 24 * 3600) }

/-- Embedding of `save_handler.lambda_handler`: validate, save the result item
(`putResult` re-raises on failure, unlike the best-effort flag writes), delete
the in-progress flag, and return a freshly built fixed-key payload; every
failure is caught, the flag deleted, and the `SaveResultsError` payload
returned. -/
def save_handler (nowStr : String) (nowEpoch : Int)
    (putResult : Except String Unit) (delFail : Bool)
    (event : List (String × Val)) (tbl : List Item) :
    List (String × Val) × List Item :=
  let sidT := ptruthy event "sessionId"
  let errOut := fun (msg : String) (t : List Item) =>
    ([("success", Val.vbool false), ("error", Val.vstr msg),
      ("sessionId", pgetV event "sessionId"), ("errorType", Val.vstr "SaveResultsError")],
     if sidT then delete_analysis_progress_flag t delFail else t)
  if ¬ (sidT && ptruthy event "userId" && ptruthy event "scenarioId" &&
        ptruthy event "audioAnalysisResult") then
    errOut "sessionId, userId, scenarioId, audioAnalysisResultが必要です" tbl
  else
    match putResult with
    | .error m => errOut m tbl
    | .ok _ =>
      let item := analysisResultItem nowStr nowEpoch
        (asStr (pgetV event "userId")) (asStr (pgetV event "scenarioId"))
        (asStr (pgetD event "language" (.vstr "ja")))
        (pgetV event "audioAnalysisResult")
      let tbl1 := putItem tbl item
      let tbl2 := delete_analysis_progress_flag tbl1 delFail
      ([("success", Val.vbool true), ("sessionId", pgetV event "sessionId"),
        ("resultsSaved", Val.vbool true), ("completedTime", Val.vstr nowStr)], tbl2)

end Pipeline

namespace Agent

/-- ASCII lowercase of one character (`str.lower()` on the characters these
error messages contain). -/
def charLower (c : Char) : Char :=
  if c.toNat ≥ 65 ∧ c.toNat ≤ 90 then Char.ofNat (c.toNat + 32) else c

/-- Lowercase a character list (`str.lower()`). -/
def toLowerChars (cs : List Char) : List Char := cs.map charLower

/-- Embedding of the throttling test of `_identify_speaker_roles_with_agent`:
the lowercased error text contains the substring "throttling" or
"too many requests". -/
def is_throttling_err (msg : String) : Bool :=
  containsSub "throttling".data (toLowerChars msg.data) ||
  containsSub "too many requests".data (toLowerChars msg.data)

/-- Result of the retry loop: the call's value, the exhausted-retries error
(naming the attempt bound and carrying the source's message), the immediate
re-raise of a non-throttling error, or the unreachable fall-through raise
after the `for` loop. -/
inductive RetryResult where
  | ok : Val → RetryResult
  | exhausted : Nat → String → RetryResult
  | reraised : String → RetryResult
  | loopFellThrough : RetryResult
  deriving DecidableEq

/-- Instrumented trace of the retry loop: number of attempts made, the sleeps
performed between consecutive attempts (in order), and the final result. -/
structure RetryTrace where
  attempts : Nat
  sleeps : List ℚ
  result : RetryResult
  deriving DecidableEq

/-- The message of the exhausted-retries exception raised by the loop. -/
def exhaustedMsg (maxRetries : Nat) (e : String) : String :=
  "Bedrock API throttling - 最大リトライ数(" ++ toString maxRetries ++
    ")に達しました: " ++ e

/-- One pass of the `for retry_count in range(max_retries)` loop of
`_identify_speaker_roles_with_agent`, starting at iteration `k` with `fuel`
iterations left: attempt the call; on a throttling failure with attempts
remaining, sleep `base * 2 ^ k + jitter k` and continue; on a throttling
failure at the last attempt, raise the exhausted-retries error; on any other
failure, re-raise immediately. -/
def retryGo (call : Nat → Except String Val) (jitter : Nat → ℚ)
    (maxRetries : Nat) (base : ℚ) : Nat → Nat → List ℚ → RetryTrace
  | _, 0, sleeps => ⟨maxRetries, sleeps, .loopFellThrough⟩
  | k, fuel + 1, sleeps =>
    match call k with
    | .ok v => ⟨k + 1, sleeps, .ok v⟩
    | .error e =>
      if is_throttling_err e then
        if k < maxRetries - 1 then
          retryGo call jitter maxRetries base (k + 1) fuel
            (sleeps ++ [base * 2 ^ k + jitter k])
        else ⟨k + 1, sleeps, .exhausted maxRetries (exhaustedMsg maxRetries e)⟩
      else ⟨k + 1, sleeps, .reraised e⟩

/-- The retry loop from iteration 0 (the loop body runs at most `maxRetries`
times, which is exactly the fuel the `range` provides). -/
def invokeWithRetry (call : Nat → Except String Val) (jitter : Nat → ℚ)
    (maxRetries : Nat) (base : ℚ) : RetryTrace :=
  retryGo call jitter maxRetries base 0 maxRetries []

/-- Embedding of `_identify_speaker_roles_with_agent`'s control flow with the
source's constants `max_retries = 5`, `base_delay = 2.0`; `call k` is the
outcome of the agent invocation on attempt `k` and `jitter k` the value of
`random.uniform(0, 1)` drawn for the sleep after attempt `k`. -/
def identify_speaker_roles_with_agent (call : Nat → Except String Val)
    (jitter : Nat → ℚ) : RetryTrace :=
  invokeWithRetry call jitter 5 2

end Agent

section PayloadLemmas

/-- Looking up the key just written by `pset` yields the new value. -/
theorem pget_pset_self (p : List (String × Val)) (k : String) (v : Val) :
    pget (pset p k v) k = some v := by
  unfold pset
  split
  · rename_i h
    induction p with
    | nil => simp_all
    | cons kv rest ih =>
      by_cases hk : kv.1 = k
      · simp [pget, List.find?, hk]
      · simp only [List.any_cons] at h
        rcases Bool.or_eq_true_iff.mp h with h1 | h2
        · exact absurd (by simpa using h1) hk
        · simp only [List.map_cons]
          rw [if_neg (by simpa using hk)]
          simpa [pget, List.find?, show (kv.1 == k) = false by simpa using hk] using ih h2
  · rename_i h
    induction p with
    | nil => simp [pget, List.find?]
    | cons kv rest ih =>
      simp only [List.any_cons, Bool.or_eq_true_iff, not_or] at h
      simp only [List.cons_append]
      have hk : (kv.1 == k) = false := by
        simpa using h.1
      simpa [pget, List.find?, hk] using ih (by simpa using h.2)

/-- Unfolding step for `pget` on a cons cell. -/
theorem pget_cons (kv : String × Val) (rest : List (String × Val)) (k : String) :
    pget (kv :: rest) k = if kv.1 == k then some kv.2 else pget rest k := by
  by_cases h : kv.1 = k
  · simp [pget, List.find?, h]
  · simp [pget, List.find?, show (kv.1 == k) = false from by simpa using h]

/-- Looking up a different key after `pset` is unchanged. -/
theorem pget_pset_ne (p : List (String × Val)) (k k' : String) (v : Val)
    (hne : k ≠ k') : pget (pset p k' v) k = pget p k := by
  have hke : (k' == k) = false := by simpa using Ne.symm hne
  unfold pset
  split
  · rename_i h
    clear h
    induction p with
    | nil => simp
    | cons kv rest ih =>
      simp only [List.map_cons]
      by_cases hk : kv.1 = k'
      · rw [if_pos (by simpa using hk)]
        rw [pget_cons, pget_cons]
        have h2 : (kv.1 == k) = false := by
          have : kv.1 ≠ k := by rw [hk]; exact Ne.symm hne
          simpa using this
        simp only [hke, h2, if_false]
        exact ih
      · rw [if_neg (by simpa using hk)]
        rw [pget_cons, pget_cons]
        by_cases hkk : kv.1 = k
        · simp [hkk]
        · simp only [show (kv.1 == k) = false from by simpa using hkk, if_false]
          exact ih
  · rename_i h
    clear h
    induction p with
    | nil => simp [pget, List.find?, hke]
    | cons kv rest ih =>
      simp only [List.cons_append]
      rw [pget_cons, pget_cons]
      by_cases hkk : kv.1 = k
      · simp [hkk]
      · simp only [show (kv.1 == k) = false from by simpa using hkk, if_false]
        exact ih

/-- A key present before `pset` is still present after it. -/
theorem pget_pset_isSome (p : List (String × Val)) (k k' : String) (v : Val)
    (h : (pget p k).isSome = true) : (pget (pset p k' v) k).isSome = true := by
  by_cases hk : k = k'
  · subst hk
    rw [pget_pset_self]
    rfl
  · rw [pget_pset_ne p k k' v hk]
    exact h

end PayloadLemmas

mutual

/-- The converted value contains no float. -/
theorem convert_noFloat : ∀ v : Val, noFloat (convert_float_to_decimal v) = true
  | .vnull => rfl
  | .vbool _ => rfl
  | .vint _ => rfl
  | .vfloat _ => rfl
  | .vdec _ => rfl
  | .vstr _ => rfl
  | .vlist xs => by
    simpa [convert_float_to_decimal, noFloat] using convertVs_noFloat xs
  | .vdict kvs => by
    simpa [convert_float_to_decimal, noFloat] using convertKVs_noFloat kvs

/-- List part of `convert_noFloat`. -/
theorem convertVs_noFloat : ∀ xs : List Val, noFloatVs (convertVs xs) = true
  | [] => rfl
  | x :: xs => by
    simp [convertVs, noFloatVs, convert_noFloat x, convertVs_noFloat xs]

/-- Dict part of `convert_noFloat`. -/
theorem convertKVs_noFloat : ∀ kvs : List (String × Val), noFloatKVs (convertKVs kvs) = true
  | [] => rfl
  | (k, v) :: rest => by
    simp [convertKVs, noFloatKVs, convert_noFloat v, convertKVs_noFloat rest]

end

mutual

/-- Conversion preserves the structural skeleton. -/
theorem convert_skeleton : ∀ v : Val, skeleton (convert_float_to_decimal v) = skeleton v
  | .vnull => rfl
  | .vbool _ => rfl
  | .vint _ => rfl
  | .vfloat _ => rfl
  | .vdec _ => rfl
  | .vstr _ => rfl
  | .vlist xs => by
    simp [convert_float_to_decimal, skeleton, convertVs_skeleton xs]
  | .vdict kvs => by
    simp [convert_float_to_decimal, skeleton, convertKVs_skeleton kvs]

/-- List part of `convert_skeleton`. -/
theorem convertVs_skeleton : ∀ xs : List Val, skeletonVs (convertVs xs) = skeletonVs xs
  | [] => rfl
  | x :: xs => by
    simp [convertVs, skeletonVs, convert_skeleton x, convertVs_skeleton xs]

/-- Dict part of `convert_skeleton`. -/
theorem convertKVs_skeleton :
    ∀ kvs : List (String × Val), skeletonKVs (convertKVs kvs) = skeletonKVs kvs
  | [] => rfl
  | (k, v) :: rest => by
    simp [convertKVs, skeletonKVs, convert_skeleton v, convertKVs_skeleton rest]

end

mutual

/-- A float-free value is left unchanged by the conversion. -/
theorem convert_id_of_noFloat : ∀ v : Val, noFloat v = true → convert_float_to_decimal v = v
  | .vnull, _ => rfl
  | .vbool _, _ => rfl
  | .vint _, _ => rfl
  | .vdec _, _ => rfl
  | .vstr _, _ => rfl
  | .vlist xs, h => by
    simp only [convert_float_to_decimal]
    simp only [noFloat] at h
    simp [convertVs_id_of_noFloat xs h]
  | .vdict kvs, h => by
    simp only [convert_float_to_decimal]
    simp only [noFloat] at h
    simp [convertKVs_id_of_noFloat kvs h]

/-- List part of `convert_id_of_noFloat`. -/
theorem convertVs_id_of_noFloat : ∀ xs : List Val, noFloatVs xs = true → convertVs xs = xs
  | [], _ => rfl
  | x :: xs, h => by
    simp only [noFloatVs, Bool.and_eq_true] at h
    simp [convertVs, convert_id_of_noFloat x h.1, convertVs_id_of_noFloat xs h.2]

/-- Dict part of `convert_id_of_noFloat`. -/
theorem convertKVs_id_of_noFloat :
    ∀ kvs : List (String × Val), noFloatKVs kvs = true → convertKVs kvs = kvs
  | [], _ => rfl
  | (k, v) :: rest, h => by
    simp only [noFloatKVs, Bool.and_eq_true] at h
    simp [convertKVs, convert_id_of_noFloat v h.1, convertKVs_id_of_noFloat rest h.2]

end

/-- Conversion is idempotent. -/
theorem convert_idem (v : Val) :
    convert_float_to_decimal (convert_float_to_decimal v) = convert_float_to_decimal v :=
  convert_id_of_noFloat _ (convert_noFloat v)

/-- C10: `convert_float_to_decimal` is a structure-preserving map — it keeps
the skeleton (dict keys, list length and order), replaces every float leaf `x`
by its decimal representation `Decimal(str(x))`, leaves float-free values (in
particular every non-float leaf) unchanged, and its output contains no float,
so applying it twice equals applying it once. -/
theorem claim_C10_convert_float_to_decimal :
    (∀ q : ℚ, convert_float_to_decimal (.vfloat q) = .vdec q) ∧
    (∀ v : Val,
      skeleton (convert_float_to_decimal v) = skeleton v ∧
      noFloat (convert_float_to_decimal v) = true ∧
      (noFloat v = true → convert_float_to_decimal v = v) ∧
      convert_float_to_decimal (convert_float_to_decimal v) = convert_float_to_decimal v) :=
  ⟨fun _ => rfl, fun v =>
    ⟨convert_skeleton v, convert_noFloat v, convert_id_of_noFloat v, convert_idem v⟩⟩

/-- Witness for C10: the non-float-leaf clause applied at a concrete nested
value. -/
theorem claim_C10_witness :
    convert_float_to_decimal
        (.vdict [("a", .vint 3), ("b", .vlist [.vstr "x", .vbool true])]) =
      .vdict [("a", .vint 3), ("b", .vlist [.vstr "x", .vbool true])] :=
  (claim_C10_convert_float_to_decimal.2
    (.vdict [("a", .vint 3), ("b", .vlist [.vstr "x", .vbool true])])).2.2.1 rfl

/-- The sequence of sleeps the retry loop performs from iteration `k` over `n`
remaining sleeps. -/
def delaysFrom (jitter : Nat → ℚ) (base : ℚ) : Nat → Nat → List ℚ
  | _, 0 => []
  | k, n + 1 => (base * 2 ^ k + jitter k) :: delaysFrom jitter base (k + 1) n

/-- Length of `delaysFrom`. -/
theorem delaysFrom_length (jitter : Nat → ℚ) (base : ℚ) :
    ∀ n k, (delaysFrom jitter base k n).length = n := by
  intro n
  induction n with
  | zero => intro k; rfl
  | succ m ih => intro k; simp [delaysFrom, ih]

/-- Entries of `delaysFrom`: the `i`-th sleep is `base * 2 ^ (k + i) + jitter (k + i)`. -/
theorem delaysFrom_get (jitter : Nat → ℚ) (base : ℚ) :
    ∀ n k i, i < n →
      (delaysFrom jitter base k n).get? i = some (base * 2 ^ (k + i) + jitter (k + i)) := by
  intro n
  induction n with
  | zero => intro k i h; omega
  | succ m ih =>
    intro k i h
    cases i with
    | zero => simp [delaysFrom]
    | succ j =>
      have := ih (k + 1) j (by omega)
      simpa [delaysFrom, Nat.add_assoc, Nat.add_comm 1 j] using this

/-- With jitter in `[0, 1]` and `base ≥ 1` the sleep sequence is non-decreasing. -/
theorem delaysFrom_chain (jitter : Nat → ℚ) (base : ℚ)
    (hj : ∀ i, 0 ≤ jitter i ∧ jitter i ≤ 1) (hb : 1 ≤ base) :
    ∀ n k, List.Chain' (· ≤ ·) (delaysFrom jitter base k n) := by
  intro n
  induction n with
  | zero => intro k; simp [delaysFrom]
  | succ m ih =>
    intro k
    cases m with
    | zero => simp [delaysFrom]
    | succ m' =>
      rw [delaysFrom, delaysFrom]
      refine List.Chain'.cons ?_ ?_
      · have h2k : (1 : ℚ) ≤ 2 ^ k := one_le_pow₀ (by norm_num)
        have hbk : base ≤ base * 2 ^ k := by nlinarith [(hj k).1]
        have : base * 2 ^ (k + 1) = base * 2 ^ k + base * 2 ^ k := by ring
        nlinarith [(hj k).2, (hj (k + 1)).1]
      · have := ih (k + 1)
        rwa [delaysFrom] at this

/-- An always-throttling call drives the retry loop to exhaustion: starting at
iteration `k` with `fuel = N - k` iterations left, the loop performs every
remaining sleep and ends with the exhausted-retries error built from the last
attempt's message. -/
theorem retryGo_throttle (call : Nat → Except String Val) (es : Nat → String)
    (jitter : Nat → ℚ) (N : Nat) (base : ℚ)
    (hcall : ∀ i, call i = .error (es i))
    (hthr : ∀ i, Agent.is_throttling_err (es i) = true) :
    ∀ fuel k sleeps, k + fuel = N → 1 ≤ fuel →
      Agent.retryGo call jitter N base k fuel sleeps =
        ⟨N, sleeps ++ delaysFrom jitter base k (fuel - 1),
         .exhausted N (Agent.exhaustedMsg N (es (N - 1)))⟩ := by
  intro fuel
  induction fuel with
  | zero => intro k sleeps _ h; omega
  | succ n ih =>
    intro k sleeps hkN _
    rw [Agent.retryGo, hcall k]
    simp only [hthr k, if_true]
    cases n with
    | zero =>
      have hk1 : k + 1 = N := by omega
      have hk2 : N - 1 = k := by omega
      rw [if_neg (by omega)]
      simp [delaysFrom, hk1, hk2]
    | succ m =>
      rw [if_pos (by omega)]
      have := ih (k + 1) (sleeps ++ [base * 2 ^ k + jitter k]) (by omega) (by omega)
      rw [this]
      simp [delaysFrom]

/-- A first failure that is not throttling is re-raised immediately: one
attempt, no sleeps. -/
theorem retryGo_nonthrottle (call : Nat → Except String Val) (jitter : Nat → ℚ)
    (N : Nat) (base : ℚ) (e : String) (fuel : Nat)
    (hcall : call 0 = .error e) (hnt : Agent.is_throttling_err e = false)
    (hfuel : 1 ≤ fuel) :
    Agent.retryGo call jitter N base 0 fuel [] = ⟨1, [], .reraised e⟩ := by
  cases fuel with
  | zero => omega
  | succ n =>
    rw [Agent.retryGo, hcall]
    simp [hnt]

/-- C4: the retry wrapper classifies an error as throttling exactly when its
lowercased text contains "throttling" or "too many requests"; with
`maxAttempts = N` and an always-throttling call it makes exactly `N` attempts,
sleeps `base * 2 ^ attempt + jitter attempt` between consecutive attempts
(`N - 1` sleeps, a non-decreasing sequence when the jitter stays in `[0, 1]`
and `base ≥ 1`, as with the source's `base = 2`), and fails with the
exhausted-retries error naming `N`; with a first failure that is not
throttling it makes exactly one attempt and re-raises with no sleep.  The
source instantiates the loop at `maxRetries = 5`, `base = 2`. -/
theorem claim_C4_retry_wrapper :
    (∀ m, Agent.is_throttling_err m =
      (containsSub "throttling".data (Agent.toLowerChars m.data) ||
       containsSub "too many requests".data (Agent.toLowerChars m.data))) ∧
    (∀ (call : Nat → Except String Val) (es : Nat → String) (jitter : Nat → ℚ)
       (N : Nat) (base : ℚ),
      (∀ i, call i = .error (es i)) →
      (∀ i, Agent.is_throttling_err (es i) = true) → 1 ≤ N →
      (Agent.invokeWithRetry call jitter N base).attempts = N ∧
      (Agent.invokeWithRetry call jitter N base).result =
        .exhausted N (Agent.exhaustedMsg N (es (N - 1))) ∧
      (Agent.invokeWithRetry call jitter N base).sleeps.length = N - 1 ∧
      (∀ i, i < N - 1 →
        (Agent.invokeWithRetry call jitter N base).sleeps.get? i =
          some (base * 2 ^ i + jitter i)) ∧
      ((∀ i, 0 ≤ jitter i ∧ jitter i ≤ 1) → 1 ≤ base →
        List.Chain' (· ≤ ·) (Agent.invokeWithRetry call jitter N base).sleeps)) ∧
    (∀ (call : Nat → Except String Val) (jitter : Nat → ℚ) (N : Nat) (base : ℚ)
       (e : String),
      call 0 = .error e → Agent.is_throttling_err e = false → 1 ≤ N →
      Agent.invokeWithRetry call jitter N base = ⟨1, [], .reraised e⟩) ∧
    (∀ call jitter, Agent.identify_speaker_roles_with_agent call jitter =
      Agent.invokeWithRetry call jitter 5 2) := by
  refine ⟨fun _ => rfl, ?_, ?_, fun _ _ => rfl⟩
  · intro call es jitter N base hcall hthr hN
    have hrun := retryGo_throttle call es jitter N base hcall hthr N 0 [] (by omega) hN
    rw [Agent.invokeWithRetry, hrun]
    refine ⟨rfl, rfl, ?_, ?_, ?_⟩
    · simp [delaysFrom_length]
    · intro i hi
      simpa using delaysFrom_get jitter base (N - 1) 0 i hi
    · intro hj hb
      simpa using delaysFrom_chain jitter base hj hb (N - 1) 0
  · intro call jitter N base e hcall hnt hN
    rw [Agent.invokeWithRetry]
    exact retryGo_nonthrottle call jitter N base e N hcall hnt hN

/-- Witness for C4: a call throttling on every attempt with `N = 3`, `base = 2`
makes 3 attempts and exhausts; a non-throttling first failure makes 1 attempt. -/
theorem claim_C4_witness :
    ((Agent.invokeWithRetry (fun _ => .error "ThrottlingException: Rate exceeded")
        (fun _ => (1 : ℚ) / 2) 3 2).attempts = 3 ∧
      (Agent.invokeWithRetry (fun _ => .error "ThrottlingException: Rate exceeded")
        (fun _ => (1 : ℚ) / 2) 3 2).result =
        .exhausted 3 (Agent.exhaustedMsg 3 "ThrottlingException: Rate exceeded")) ∧
    Agent.invokeWithRetry (fun _ => .error "X failure") (fun _ => (1 : ℚ) / 2) 3 2 =
      ⟨1, [], .reraised "X failure"⟩ := by
  constructor
  · have hthr : Agent.is_throttling_err "ThrottlingException: Rate exceeded" = true := by
      decide
    have h := claim_C4_retry_wrapper.2.1 (fun _ => .error "ThrottlingException: Rate exceeded")
      (fun _ => "ThrottlingException: Rate exceeded") (fun _ => (1 : ℚ) / 2) 3 2
      (fun _ => rfl) (fun _ => hthr) (by norm_num)
    exact ⟨h.1, h.2.1⟩
  · exact claim_C4_retry_wrapper.2.2.1 (fun _ => .error "X failure")
      (fun _ => (1 : ℚ) / 2) 3 2 "X failure" rfl (by decide) (by norm_num)

/-- After a successful `delete_reference_check_progress_flag`, no
`reference-check-in-progress` item remains (provided each such item carries its
key attribute `createdAt`, as every item the code writes does). -/
theorem delete_ref_flag_clears (tbl : List Item)
    (hkeys : ∀ x ∈ queryByType tbl "reference-check-in-progress",
      x.createdAt.isSome = true) :
    queryByType (RefCheck.delete_reference_check_progress_flag tbl false)
      "reference-check-in-progress" = [] := by
  unfold RefCheck.delete_reference_check_progress_flag
  rw [if_neg (by simp : ¬(false = true))]
  rw [queryByType, List.filter_eq_nil_iff]
  intro x hx
  rw [List.mem_filter] at hx
  intro hdt
  have hxq : x ∈ queryByType tbl "reference-check-in-progress" := by
    rw [queryByType, List.mem_filter]
    exact ⟨hx.1, hdt⟩
  have hsome := hkeys x hxq
  rcases hc : x.createdAt with _ | c
  · rw [hc] at hsome; simp at hsome
  · have hmem : c ∈ (queryByType tbl "reference-check-in-progress").filterMap
        (fun it => it.createdAt) := by
      rw [List.mem_filterMap]
      exact ⟨x, hxq, hc⟩
    have := hx.2
    rw [hc] at this
    simp only [decide_eq_true_eq] at this
    exact this (by simpa using hmem)

/-- C3 (amended): both guards use a strict `age > threshold` test (600 s for
reference check, 10800 s for audio analysis), so a record at exactly the
threshold age still counts as in progress; on a strictly stale record the
reference-check guard deletes the in-progress records and returns the proceed
outcome, while the audio-analysis guard merely ignores the record — it returns
the proceed outcome without deleting anything (the start endpoint never mutates
the table). -/
theorem claim_C3_staleness_boundary :
    (∀ (parse : String → Option ℚ) (now : ℚ) (tbl : List Item) (it : Item)
       (s : String) (t : ℚ),
      (queryByType tbl "reference-check-in-progress").head? = some it →
      it.createdAt = some s → s ≠ "" → parse (replaceZ s) = some t →
      (∀ x ∈ queryByType tbl "reference-check-in-progress", x.createdAt.isSome = true) →
      (now - t > 600 →
        RefCheck.is_reference_check_in_progress parse now tbl false false =
          (false, RefCheck.delete_reference_check_progress_flag tbl false) ∧
        queryByType (RefCheck.delete_reference_check_progress_flag tbl false)
          "reference-check-in-progress" = []) ∧
      (now - t ≤ 600 →
        RefCheck.is_reference_check_in_progress parse now tbl false false = (true, tbl))) ∧
    (∀ (parse : String → Option ℚ) (now : ℚ) (tbl : List Item) (it : Item)
       (s : String) (t : ℚ),
      (queryByType tbl "audio-analysis-in-progress").head? = some it →
      it.createdAt = some s → s ≠ "" → parse (replaceZ s) = some t →
      (now - t > 10800 → AudioApi.get_analysis_progress parse now tbl false = none) ∧
      (now - t ≤ 10800 → AudioApi.get_analysis_progress parse now tbl false = some it)) ∧
    (∀ (parse : String → Option ℚ) (now : ℚ) (sid : String)
       (body : List (String × Val)) (sfnStart : Except String String)
       (qR qP : Bool) (tbl : List Item),
      (AudioApi.start_audio_analysis parse now sid body sfnStart qR qP tbl).2 = tbl) := by
  refine ⟨?_, ?_, ?_⟩
  · intro parse now tbl it s t hhead hca hs hp hkeys
    constructor
    · intro hstale
      refine ⟨?_, delete_ref_flag_clears tbl hkeys⟩
      simp [RefCheck.is_reference_check_in_progress, hhead, hca, hs, hp, hstale]
    · intro hfresh
      have hnl : ¬(now - t > 600) := not_lt.mpr hfresh
      simp [RefCheck.is_reference_check_in_progress, hhead, hca, hs, hp, hnl]
  · intro parse now tbl it s t hhead hca hs hp
    constructor
    · intro hstale
      simp [AudioApi.get_analysis_progress, hhead, hca, hs, hp, hstale]
    · intro hfresh
      have hnl : ¬(now - t > 10800) := not_lt.mpr hfresh
      simp [AudioApi.get_analysis_progress, hhead, hca, hs, hp, hnl]
  · intro parse now sid body sfnStart qR qP tbl
    unfold AudioApi.start_audio_analysis
    cases AudioApi.get_existing_analysis_result tbl qR with
    | some it => rfl
    | none =>
      by_cases h : AudioApi.is_analysis_in_progress parse now tbl qP
      · simp [h]
      · simp only [h, if_false, Bool.false_eq_true]
        by_cases h2 : (ptruthy body "audioKey" && ptruthy body "scenarioId") = true
        · rw [if_pos h2]
          cases sfnStart with
          | ok arn => rfl
          | error m => rfl
        · rw [if_neg h2]

/-- A stale `reference-check-in-progress` item for concrete runs. -/
def refStaleItem : Item :=
  { createdAt := some "2026-01-01T00:00:00Z", dataType := "reference-check-in-progress" }

/-- A stale `audio-analysis-in-progress` item for concrete runs. -/
def audStaleItem : Item :=
  { createdAt := some "2026-01-01T00:00:00Z", dataType := "audio-analysis-in-progress" }

/-- A concrete timestamp parser for witness runs: every timestamp parses to
epoch-second 0. -/
def parseFixed : String → Option ℚ := fun _ => some 0

/-- Witness for C3 at concrete ages 601/600 (reference check) and 10801/10800
(audio analysis) seconds. -/
theorem claim_C3_witness :
    (RefCheck.is_reference_check_in_progress parseFixed 601 [refStaleItem] false false =
      (false, RefCheck.delete_reference_check_progress_flag [refStaleItem] false) ∧
     queryByType (RefCheck.delete_reference_check_progress_flag [refStaleItem] false)
       "reference-check-in-progress" = []) ∧
    RefCheck.is_reference_check_in_progress parseFixed 600 [refStaleItem] false false =
      (true, [refStaleItem]) ∧
    AudioApi.get_analysis_progress parseFixed 10801 [audStaleItem] false = none ∧
    AudioApi.get_analysis_progress parseFixed 10800 [audStaleItem] false = some audStaleItem := by
  have hheadR : (queryByType [refStaleItem] "reference-check-in-progress").head? =
      some refStaleItem := rfl
  have hheadA : (queryByType [audStaleItem] "audio-analysis-in-progress").head? =
      some audStaleItem := rfl
  have hca : refStaleItem.createdAt = some "2026-01-01T00:00:00Z" := rfl
  have hcaA : audStaleItem.createdAt = some "2026-01-01T00:00:00Z" := rfl
  have hs : "2026-01-01T00:00:00Z" ≠ "" := by decide
  have hp : parseFixed (replaceZ "2026-01-01T00:00:00Z") = some 0 := rfl
  have hkeys : ∀ x ∈ queryByType [refStaleItem] "reference-check-in-progress",
      x.createdAt.isSome = true := by
    intro x hx
    simp [queryByType, refStaleItem] at hx
    subst hx
    rfl
  refine ⟨(claim_C3_staleness_boundary.1 parseFixed 601 [refStaleItem] refStaleItem
      "2026-01-01T00:00:00Z" 0 hheadR hca hs hp hkeys).1 (by norm_num),
    (claim_C3_staleness_boundary.1 parseFixed 600 [refStaleItem] refStaleItem
      "2026-01-01T00:00:00Z" 0 hheadR hca hs hp hkeys).2 (by norm_num),
    (claim_C3_staleness_boundary.2.1 parseFixed 10801 [audStaleItem] audStaleItem
      "2026-01-01T00:00:00Z" 0 hheadA hcaA hs hp).1 (by norm_num),
    (claim_C3_staleness_boundary.2.1 parseFixed 10800 [audStaleItem] audStaleItem
      "2026-01-01T00:00:00Z" 0 hheadA hcaA hs hp).2 (by norm_num)⟩

/-- Counterexample to C3 as stated: for a strictly stale audio-analysis
in-progress record the guard proceeds, the start endpoint runs the new
execution, and yet the stale record is not deleted — the table is unchanged
and still holds it, contradicting "the deletion of the stale record holds at
every call site of the guard". -/
theorem claim_C3_counterexample :
    AudioApi.get_analysis_progress parseFixed 10801 [audStaleItem] false = none ∧
    AudioApi.start_audio_analysis parseFixed 10801 "S1"
        [("audioKey", .vstr "a.mp3"), ("scenarioId", .vstr "sc1")] (.ok "arn-1")
        false false [audStaleItem] =
      (.okBody (AudioApi.startedBody "S1" "arn-1"), [audStaleItem]) := by
  have hprog : AudioApi.get_analysis_progress parseFixed 10801 [audStaleItem] false = none := by
    unfold AudioApi.get_analysis_progress
    norm_num [queryByType, audStaleItem, parseFixed]
    intro h
    exact absurd h (by decide)
  have hip : AudioApi.is_analysis_in_progress parseFixed 10801 [audStaleItem] false = false := by
    simp [AudioApi.is_analysis_in_progress, hprog]
  have hres : AudioApi.get_existing_analysis_result [audStaleItem] false = none := by
    simp [AudioApi.get_existing_analysis_result, queryByType, audStaleItem]
  have hval : (ptruthy [("audioKey", Val.vstr "a.mp3"), ("scenarioId", Val.vstr "sc1")] "audioKey" &&
      ptruthy [("audioKey", Val.vstr "a.mp3"), ("scenarioId", Val.vstr "sc1")] "scenarioId") = true := by
    decide
  refine ⟨hprog, ?_⟩
  unfold AudioApi.start_audio_analysis
  rw [hres]
  simp [hip, hval]

/-- C8 (amended): when the in-progress record's creation timestamp fails to
parse (after the Z-to-offset mapping), **both** call sites of the guard treat
the record as still in progress — the reference-check guard returns the
in-progress flag and the audio-analysis guard returns the record — so the
"assume abandoned on parse failure" policy does not occur at any call site. -/
theorem claim_C8_parse_failure_policy :
    (∀ (parse : String → Option ℚ) (now : ℚ) (tbl : List Item) (it : Item) (s : String),
      (queryByType tbl "reference-check-in-progress").head? = some it →
      it.createdAt = some s → s ≠ "" → parse (replaceZ s) = none →
      RefCheck.is_reference_check_in_progress parse now tbl false false = (true, tbl)) ∧
    (∀ (parse : String → Option ℚ) (now : ℚ) (tbl : List Item) (it : Item) (s : String),
      (queryByType tbl "audio-analysis-in-progress").head? = some it →
      it.createdAt = some s → s ≠ "" → parse (replaceZ s) = none →
      AudioApi.get_analysis_progress parse now tbl false = some it) := by
  constructor
  · intro parse now tbl it s hhead hca hs hp
    simp [RefCheck.is_reference_check_in_progress, hhead, hca, hs, hp]
  · intro parse now tbl it s hhead hca hs hp
    simp [AudioApi.get_analysis_progress, hhead, hca, hs, hp]

/-- An in-progress reference-check record whose timestamp does not parse. -/
def badTsRefItem : Item :=
  { createdAt := some "not-a-timestamp", dataType := "reference-check-in-progress" }

/-- An in-progress audio-analysis record whose timestamp does not parse. -/
def badTsAudItem : Item :=
  { createdAt := some "not-a-timestamp", dataType := "audio-analysis-in-progress" }

/-- A parser that fails on every timestamp. -/
def parseNone : String → Option ℚ := fun _ => none

/-- Witness for C8 at a concrete unparseable timestamp. -/
theorem claim_C8_witness :
    RefCheck.is_reference_check_in_progress parseNone 0 [badTsRefItem] false false =
      (true, [badTsRefItem]) ∧
    AudioApi.get_analysis_progress parseNone 0 [badTsAudItem] false = some badTsAudItem :=
  ⟨claim_C8_parse_failure_policy.1 parseNone 0 [badTsRefItem] badTsRefItem
      "not-a-timestamp" rfl rfl (by decide) rfl,
    claim_C8_parse_failure_policy.2 parseNone 0 [badTsAudItem] badTsAudItem
      "not-a-timestamp" rfl rfl (by decide) rfl⟩

/-- Counterexample to C8 as stated: at a concrete parse-failure input, neither
call site treats the record as abandoned — the reference-check guard reports
in-progress and the audio-analysis guard returns the record — refuting the
claim that some call site returns the proceed outcome on parse failure. -/
theorem claim_C8_counterexample :
    ¬ ((RefCheck.is_reference_check_in_progress parseNone 0 [badTsRefItem] false false).1
          = false ∨
       AudioApi.get_analysis_progress parseNone 0 [badTsAudItem] false = none) := by
  intro h
  have h1 : (RefCheck.is_reference_check_in_progress parseNone 0 [badTsRefItem] false false).1
      = true := by
    simp [RefCheck.is_reference_check_in_progress, queryByType, badTsRefItem, parseNone]
  have h2 : AudioApi.get_analysis_progress parseNone 0 [badTsAudItem] false =
      some badTsAudItem := by
    simp [AudioApi.get_analysis_progress, queryByType, badTsAudItem, parseNone]
  rcases h with h | h
  · rw [h1] at h
    exact Bool.noConfusion h
  · rw [h2] at h
    exact Option.noConfusion h

/-- C1 (amended): once a RESULT record with a truthy payload exists, both guard
checks short-circuit before any expensive work, regardless of concurrently
existing IN_PROGRESS records: the reference-check endpoint returns the stored
result unchanged (for any work oracle and any flag-store failures, leaving the
table untouched), while the audio-analysis start endpoint returns the fixed
COMPLETED acknowledgement body — not the stored result — and never starts the
execution. -/
theorem claim_C1_result_short_circuit :
    (∀ (parse : String → Option ℚ) (now : ℚ) (nowStr : String) (nowEpoch : Int)
       (saveNowStr : String) (saveNowEpoch : Int) (qProgF delF putF saveF delF2 : Bool)
       (work : RefCheck.RefWork) (tbl : List Item) (v : Val),
      RefCheck.get_existing_reference_check tbl false = some v → truthy v = true →
      RefCheck.get_reference_check parse now nowStr nowEpoch saveNowStr saveNowEpoch
        false qProgF delF putF saveF delF2 work tbl = (.okBody v, tbl)) ∧
    (∀ (parse : String → Option ℚ) (now : ℚ) (sid : String)
       (body : List (String × Val)) (sfnStart : Except String String) (qProgF : Bool)
       (tbl : List Item) (it : Item),
      AudioApi.get_existing_analysis_result tbl false = some it →
      AudioApi.start_audio_analysis parse now sid body sfnStart false qProgF tbl =
        (.okBody (AudioApi.completedBody sid), tbl)) := by
  constructor
  · intro parse now nowStr nowEpoch saveNowStr saveNowEpoch qProgF delF putF saveF delF2
      work tbl v hex htr
    unfold RefCheck.get_reference_check RefCheck.checkAndAcquire
    simp [hex, optTruthy, htr]
  · intro parse now sid body sfnStart qProgF tbl it hex
    unfold AudioApi.start_audio_analysis
    rw [hex]

/-- A stored audio-analysis RESULT record with recognisable content. -/
def audResultItem : Item :=
  { createdAt := some "2026-01-01T00:00:00Z", dataType := "audio-analysis-result",
    userId := some "owner1", audioAnalysisData := some (.vstr "RESULT-DATA") }

/-- Counterexample to C1 as stated: with a stored RESULT record present, the
audio-analysis start endpoint does short-circuit, but its response is the fixed
COMPLETED body — it is not the stored result and does not contain the stored
result data anywhere, refuting "returns the stored completed result unchanged"
for this endpoint. -/
theorem claim_C1_counterexample :
    AudioApi.start_audio_analysis parseNone 0 "S1" [] (.ok "arn-1") false false
        [audResultItem] =
      (.okBody (AudioApi.completedBody "S1"), [audResultItem]) ∧
    occursStr "RESULT-DATA" (AudioApi.completedBody "S1") = false ∧
    AudioApi.completedBody "S1" ≠ .vstr "RESULT-DATA" := by
  refine ⟨?_, by decide, by decide⟩
  have hres : AudioApi.get_existing_analysis_result [audResultItem] false =
      some audResultItem := rfl
  unfold AudioApi.start_audio_analysis
  rw [hres]

/-- The stored reference-check result used in the C1 witness. -/
def refStoredVal : Val :=
  .vdict [("messages", .vlist []),
          ("summary", .vdict [("totalMessages", .vint 1), ("checkedMessages", .vint 1)])]

/-- A stored reference-check RESULT record. -/
def refResultItem : Item :=
  { createdAt := some "2026-01-01T00:00:00Z", dataType := "reference-check",
    referenceCheckData := some refStoredVal }

/-- Witness for C1 at concrete stores (note both short-circuit even though the
work oracle would fail and the execution starter is broken). -/
theorem claim_C1_witness :
    RefCheck.get_reference_check parseNone 0 "TS1" 0 "TS2" 0 false false false false
        false false (.failure "would-explode") [refResultItem] =
      (.okBody refStoredVal, [refResultItem]) ∧
    AudioApi.start_audio_analysis parseNone 0 "S1" [] (.error "sfn-down") false false
        [audResultItem] =
      (.okBody (AudioApi.completedBody "S1"), [audResultItem]) :=
  ⟨claim_C1_result_short_circuit.1 parseNone 0 "TS1" 0 "TS2" 0 false false false false
      false (.failure "would-explode") [refResultItem] refStoredVal rfl (by decide),
    claim_C1_result_short_circuit.2 parseNone 0 "S1" [] (.error "sfn-down") false
      [audResultItem] audResultItem rfl⟩

/-- C2: for a jobId with no RESULT record and no prior IN_PROGRESS record, the
first guard invocation proceeds (writing a fresh IN_PROGRESS marker), and a
second invocation running after that marker is written — while the marker is
younger than the staleness threshold — yields the 409-style
ALREADY_IN_PROGRESS conflict without starting work, at both endpoints. -/
theorem claim_C2_single_proceed :
    (∀ (parse : String → Option ℚ) (now1 now2 : ℚ) (nowStr nowStr2 : String)
       (nowEpoch nowEpoch2 : Int) (saveNowStr : String) (saveNowEpoch : Int)
       (work : RefCheck.RefWork) (tbl : List Item) (t1 : ℚ),
      queryByType tbl "reference-check" = [] →
      queryByType tbl "reference-check-in-progress" = [] →
      (tbl.any fun x => x.createdAt == some nowStr) = false →
      nowStr ≠ "" → parse (replaceZ nowStr) = some t1 → now2 - t1 ≤ 600 →
      RefCheck.checkAndAcquire parse now1 nowStr nowEpoch false false false false tbl =
        (.proceed, RefCheck.progressFlagItem nowStr nowEpoch :: tbl) ∧
      RefCheck.get_reference_check parse now2 nowStr2 nowEpoch2 saveNowStr saveNowEpoch
          false false false false false false work
          (RefCheck.progressFlagItem nowStr nowEpoch :: tbl) =
        (.conflict409, RefCheck.progressFlagItem nowStr nowEpoch :: tbl)) ∧
    (∀ (parse : String → Option ℚ) (now1 now2 : ℚ) (sid : String)
       (body : List (String × Val)) (arn : String) (sfn2 : Except String String)
       (tbl : List Item) (nowStr : String) (nowEpoch : Int)
       (u sc lg ak jn : String) (t1 : ℚ),
      queryByType tbl "audio-analysis-result" = [] →
      queryByType tbl "audio-analysis-in-progress" = [] →
      ptruthy body "audioKey" = true → ptruthy body "scenarioId" = true →
      (tbl.any fun x => x.createdAt == some nowStr) = false →
      nowStr ≠ "" → parse (replaceZ nowStr) = some t1 → now2 - t1 ≤ 10800 →
      AudioApi.start_audio_analysis parse now1 sid body (.ok arn) false false tbl =
        (.okBody (AudioApi.startedBody sid arn), tbl) ∧
      Pipeline.set_analysis_start_flag tbl nowStr nowEpoch u sc lg ak jn false =
        Pipeline.startFlagItem nowStr nowEpoch u sc lg ak jn :: tbl ∧
      AudioApi.start_audio_analysis parse now2 sid body sfn2 false false
          (Pipeline.startFlagItem nowStr nowEpoch u sc lg ak jn :: tbl) =
        (.conflict409, Pipeline.startFlagItem nowStr nowEpoch u sc lg ak jn :: tbl)) := by
  constructor
  · intro parse now1 now2 nowStr nowStr2 nowEpoch nowEpoch2 saveNowStr saveNowEpoch
      work tbl t1 hres hipq hany hne hp hage
    have hres0 : List.filter (fun it => it.dataType == "reference-check") tbl = [] := hres
    have hipq0 : List.filter (fun it => it.dataType == "reference-check-in-progress") tbl
        = [] := hipq
    constructor
    · have hex : RefCheck.get_existing_reference_check tbl false = none := by
        simp [RefCheck.get_existing_reference_check, hipq, hres]
      have hip : RefCheck.is_reference_check_in_progress parse now1 tbl false false =
          (false, tbl) := by
        simp [RefCheck.is_reference_check_in_progress, hipq]
      simp [RefCheck.checkAndAcquire, hex, hip, optTruthy,
        RefCheck.set_reference_check_progress_flag, putItem, RefCheck.progressFlagItem, hany]
    · have hres2 : RefCheck.get_existing_reference_check
          (RefCheck.progressFlagItem nowStr nowEpoch :: tbl) false = none := by
        simp [RefCheck.get_existing_reference_check, queryByType,
          RefCheck.progressFlagItem, hres0]
      have hq2 : queryByType (RefCheck.progressFlagItem nowStr nowEpoch :: tbl)
          "reference-check-in-progress" = [RefCheck.progressFlagItem nowStr nowEpoch] := by
        simp [queryByType, RefCheck.progressFlagItem, hipq0]
      have hnl : ¬(now2 - t1 > 600) := not_lt.mpr hage
      have hhead2 : (queryByType (RefCheck.progressFlagItem nowStr nowEpoch :: tbl)
          "reference-check-in-progress").head? =
          some (RefCheck.progressFlagItem nowStr nowEpoch) := by
        rw [hq2]; rfl
      have hca2 : (RefCheck.progressFlagItem nowStr nowEpoch).createdAt = some nowStr := rfl
      have hip2 : RefCheck.is_reference_check_in_progress parse now2
          (RefCheck.progressFlagItem nowStr nowEpoch :: tbl) false false =
          (true, RefCheck.progressFlagItem nowStr nowEpoch :: tbl) := by
        simp [RefCheck.is_reference_check_in_progress, hhead2, hca2, hne, hp, hnl]
      simp [RefCheck.get_reference_check, RefCheck.checkAndAcquire, hres2, hip2, optTruthy]
  · intro parse now1 now2 sid body arn sfn2 tbl nowStr nowEpoch u sc lg ak jn t1
      hres hipq hak hsc hany hne hp hage
    have hres0 : List.filter (fun it => it.dataType == "audio-analysis-result") tbl = [] :=
      hres
    have hipq0 : List.filter (fun it => it.dataType == "audio-analysis-in-progress") tbl
        = [] := hipq
    refine ⟨?_, ?_, ?_⟩
    · have hex : AudioApi.get_existing_analysis_result tbl false = none := by
        simp [AudioApi.get_existing_analysis_result, hres]
      have hip : AudioApi.get_analysis_progress parse now1 tbl false = none := by
        simp [AudioApi.get_analysis_progress, hipq]
      simp [AudioApi.start_audio_analysis, hex, AudioApi.is_analysis_in_progress, hip,
        hak, hsc]
    · simp [Pipeline.set_analysis_start_flag, putItem, Pipeline.startFlagItem, hany]
    · have hex2 : AudioApi.get_existing_analysis_result
          (Pipeline.startFlagItem nowStr nowEpoch u sc lg ak jn :: tbl) false = none := by
        simp [AudioApi.get_existing_analysis_result, queryByType,
          Pipeline.startFlagItem, hres0]
      have hq2 : queryByType (Pipeline.startFlagItem nowStr nowEpoch u sc lg ak jn :: tbl)
          "audio-analysis-in-progress" =
          [Pipeline.startFlagItem nowStr nowEpoch u sc lg ak jn] := by
        simp [queryByType, Pipeline.startFlagItem, hipq0]
      have hnl : ¬(now2 - t1 > 10800) := not_lt.mpr hage
      have hhead2 : (queryByType (Pipeline.startFlagItem nowStr nowEpoch u sc lg ak jn :: tbl)
          "audio-analysis-in-progress").head? =
          some (Pipeline.startFlagItem nowStr nowEpoch u sc lg ak jn) := by
        rw [hq2]; rfl
      have hca2 : (Pipeline.startFlagItem nowStr nowEpoch u sc lg ak jn).createdAt =
          some nowStr := rfl
      have hip2 : AudioApi.get_analysis_progress parse now2
          (Pipeline.startFlagItem nowStr nowEpoch u sc lg ak jn :: tbl) false =
          some (Pipeline.startFlagItem nowStr nowEpoch u sc lg ak jn) := by
        simp [AudioApi.get_analysis_progress, hhead2, hca2, hne, hp, hnl]
      simp [AudioApi.start_audio_analysis, hex2, AudioApi.is_analysis_in_progress, hip2]

/-- Witness for C2: on an empty store, the first invocation proceeds and the
second — after the fresh marker is written — gets the 409 conflict, at both
endpoints. -/
theorem claim_C2_witness :
    (RefCheck.checkAndAcquire parseFixed 0 "2026-01-01T00:00:00Z" 0 false false false false
        [] = (.proceed, [RefCheck.progressFlagItem "2026-01-01T00:00:00Z" 0]) ∧
      RefCheck.get_reference_check parseFixed 1 "TS2" 1 "TS3" 1 false false false false
          false false (.results (.vstr "r"))
          [RefCheck.progressFlagItem "2026-01-01T00:00:00Z" 0] =
        (.conflict409, [RefCheck.progressFlagItem "2026-01-01T00:00:00Z" 0])) ∧
    (AudioApi.start_audio_analysis parseFixed 0 "S1"
          [("audioKey", .vstr "a.mp3"), ("scenarioId", .vstr "sc1")] (.ok "arn-1")
          false false [] =
        (.okBody (AudioApi.startedBody "S1" "arn-1"), []) ∧
      Pipeline.set_analysis_start_flag [] "2026-01-01T00:00:00Z" 0 "U" "sc1" "ja" "a.mp3"
          "job1" false =
        [Pipeline.startFlagItem "2026-01-01T00:00:00Z" 0 "U" "sc1" "ja" "a.mp3" "job1"] ∧
      AudioApi.start_audio_analysis parseFixed 1 "S1"
          [("audioKey", .vstr "a.mp3"), ("scenarioId", .vstr "sc1")] (.ok "arn-2")
          false false
          [Pipeline.startFlagItem "2026-01-01T00:00:00Z" 0 "U" "sc1" "ja" "a.mp3" "job1"] =
        (.conflict409,
          [Pipeline.startFlagItem "2026-01-01T00:00:00Z" 0 "U" "sc1" "ja" "a.mp3" "job1"])) :=
  ⟨claim_C2_single_proceed.1 parseFixed 0 1 "2026-01-01T00:00:00Z" "TS2" 0 1 "TS3" 1
      (.results (.vstr "r")) [] 0 rfl rfl rfl (by decide) rfl (by norm_num),
    claim_C2_single_proceed.2 parseFixed 0 1 "S1"
      [("audioKey", .vstr "a.mp3"), ("scenarioId", .vstr "sc1")] "arn-1" (.ok "arn-2") []
      "2026-01-01T00:00:00Z" 0 "U" "sc1" "ja" "a.mp3" "job1" 0 rfl rfl (by decide)
      (by decide) rfl (by decide) rfl (by norm_num)⟩

/-- The in-progress flag returned by the reference-check guard does not depend
on whether the (best-effort) stale-record delete fails. -/
theorem isRefIP_fst_indep (parse : String → Option ℚ) (now : ℚ) (tbl : List Item)
    (qF dF dF' : Bool) :
    (RefCheck.is_reference_check_in_progress parse now tbl qF dF).1 =
    (RefCheck.is_reference_check_in_progress parse now tbl qF dF').1 := by
  unfold RefCheck.is_reference_check_in_progress
  cases qF
  · simp only [Bool.false_eq_true, if_false]
    cases (queryByType tbl "reference-check-in-progress").head? with
    | none => rfl
    | some it =>
      dsimp only
      cases it.createdAt with
      | none => rfl
      | some s =>
        dsimp only
        by_cases hs : s = ""
        · rw [if_pos hs, if_pos hs]
        · rw [if_neg hs, if_neg hs]
          cases parse (replaceZ s) with
          | none => rfl
          | some t =>
            dsimp only
            by_cases hst : now - t > 600
            · rw [if_pos hst, if_pos hst]
            · rw [if_neg hst, if_neg hst]
  · rfl

/-- C7: progress-record store failures are never fatal — a failing read behaves
as "record not found" (result lookup and in-progress guard, at both call
sites), failing flag writes/deletes are swallowed leaving the table unchanged,
and the business outcome of the reference-check endpoint, the start handler's
payload and the save handler's payload are unchanged by flag-write/delete
failures. -/
theorem claim_C7_store_failures_nonfatal :
    (∀ tbl, RefCheck.get_existing_reference_check tbl true = none) ∧
    (∀ (parse : String → Option ℚ) (now : ℚ) (tbl : List Item) (dF : Bool),
      RefCheck.is_reference_check_in_progress parse now tbl true dF = (false, tbl)) ∧
    (∀ tbl, AudioApi.get_existing_analysis_result tbl true = none) ∧
    (∀ (parse : String → Option ℚ) (now : ℚ) (tbl : List Item),
      AudioApi.get_analysis_progress parse now tbl true = none) ∧
    (∀ tbl nowStr nowEpoch,
      RefCheck.set_reference_check_progress_flag tbl nowStr nowEpoch true = tbl) ∧
    (∀ tbl, RefCheck.delete_reference_check_progress_flag tbl true = tbl) ∧
    (∀ tbl nowStr nowEpoch u sc lg ak jn,
      Pipeline.set_analysis_start_flag tbl nowStr nowEpoch u sc lg ak jn true = tbl) ∧
    (∀ tbl, Pipeline.delete_analysis_progress_flag tbl true = tbl) ∧
    (∀ (parse : String → Option ℚ) (now : ℚ) (nowStr : String) (nowEpoch : Int)
       (saveNowStr : String) (saveNowEpoch : Int) (qR qP : Bool)
       (work : RefCheck.RefWork) (tbl : List Item) (dF pF sF dF2 dF' pF' sF' dF2' : Bool),
      (RefCheck.get_reference_check parse now nowStr nowEpoch saveNowStr saveNowEpoch
        qR qP dF pF sF dF2 work tbl).1 =
      (RefCheck.get_reference_check parse now nowStr nowEpoch saveNowStr saveNowEpoch
        qR qP dF' pF' sF' dF2' work tbl).1) ∧
    (∀ nowStr nowEpoch headOk scen ev tbl (pF pF' : Bool),
      (Pipeline.start_handler nowStr nowEpoch headOk scen pF ev tbl).1 =
      (Pipeline.start_handler nowStr nowEpoch headOk scen pF' ev tbl).1) ∧
    (∀ nowStr nowEpoch putRes ev tbl (dF dF' : Bool),
      (Pipeline.save_handler nowStr nowEpoch putRes dF ev tbl).1 =
      (Pipeline.save_handler nowStr nowEpoch putRes dF' ev tbl).1) := by
  refine ⟨fun _ => rfl, fun _ _ _ _ => rfl, fun _ => rfl, fun _ _ _ => rfl,
    fun _ _ _ => rfl, fun _ => rfl, fun _ _ _ _ _ _ _ _ => rfl, fun _ => rfl,
    ?_, ?_, ?_⟩
  · intro parse now nowStr nowEpoch saveNowStr saveNowEpoch qR qP work tbl
      dF pF sF dF2 dF' pF' sF' dF2'
    unfold RefCheck.get_reference_check RefCheck.checkAndAcquire
    dsimp only
    have hfst := isRefIP_fst_indep parse now tbl qP dF dF'
    cases hopt : optTruthy (RefCheck.get_existing_reference_check tbl qR)
    · simp only [hopt, Bool.false_eq_true, if_false]
      cases hb : (RefCheck.is_reference_check_in_progress parse now tbl qP dF).1
      · rw [hb] at hfst
        rw [← hfst]
        simp only [Bool.false_eq_true, if_false]
        cases work <;> rfl
      · rw [hb] at hfst
        rw [← hfst]
        rfl
    · simp only [hopt, if_true]
  · intro nowStr nowEpoch headOk scen ev tbl pF pF'
    unfold Pipeline.start_handler
    split
    · rfl
    · cases headOk with
      | error m => rfl
      | ok u =>
        cases scen with
        | error m => rfl
        | ok b => cases b <;> rfl
  · intro nowStr nowEpoch putRes ev tbl dF dF'
    unfold Pipeline.save_handler
    split
    · dsimp only
      split <;> rfl
    · dsimp only
      split <;> rfl

/-- C9: when the stored analysis result's `userId` differs from the caller's
identity, both the status and the results endpoints raise the not-found
condition with a message that mentions only the session id — none of the
stored analysis data; consequently two stores whose results are both owned by
someone else produce identical responses for that caller, independent of the
stored content. -/
theorem claim_C9_ownership_isolation :
    (∀ (parse : String → Option ℚ) (now : ℚ) (sid userId : String) (qP : Bool)
       (tbl : List Item) (it : Item),
      sid ≠ "" →
      AudioApi.get_existing_analysis_result tbl false = some it →
      (it.userId == some userId) = false →
      AudioApi.get_analysis_status parse now sid userId false qP tbl =
        .notFound ("セッションが見つかりません: " ++ sid) ∧
      AudioApi.get_analysis_results sid userId false tbl =
        .notFound ("セッションが見つかりません: " ++ sid)) ∧
    (∀ (parse parse' : String → Option ℚ) (now now' : ℚ) (sid userId : String)
       (qP qP' : Bool) (tbl tbl' : List Item) (it it' : Item),
      sid ≠ "" →
      AudioApi.get_existing_analysis_result tbl false = some it →
      (it.userId == some userId) = false →
      AudioApi.get_existing_analysis_result tbl' false = some it' →
      (it'.userId == some userId) = false →
      AudioApi.get_analysis_status parse now sid userId false qP tbl =
        AudioApi.get_analysis_status parse' now' sid userId false qP' tbl' ∧
      AudioApi.get_analysis_results sid userId false tbl =
        AudioApi.get_analysis_results sid userId false tbl') := by
  have base : ∀ (parse : String → Option ℚ) (now : ℚ) (sid userId : String) (qP : Bool)
      (tbl : List Item) (it : Item),
      sid ≠ "" →
      AudioApi.get_existing_analysis_result tbl false = some it →
      (it.userId == some userId) = false →
      AudioApi.get_analysis_status parse now sid userId false qP tbl =
        .notFound ("セッションが見つかりません: " ++ sid) ∧
      AudioApi.get_analysis_results sid userId false tbl =
        .notFound ("セッションが見つかりません: " ++ sid) := by
    intro parse now sid userId qP tbl it hsid hres hmis
    constructor
    · unfold AudioApi.get_analysis_status
      rw [if_neg hsid, hres]
      dsimp only
      rw [if_neg (by simp [hmis])]
    · unfold AudioApi.get_analysis_results
      rw [if_neg hsid, hres]
      dsimp only
      rw [if_neg (by simp [hmis])]
  refine ⟨base, ?_⟩
  intro parse parse' now now' sid userId qP qP' tbl tbl' it it' hsid hres hmis hres' hmis'
  have h1 := base parse now sid userId qP tbl it hsid hres hmis
  have h2 := base parse' now' sid userId qP' tbl' it' hsid hres' hmis'
  exact ⟨h1.1.trans h2.1.symm, h1.2.trans h2.2.symm⟩

/-- A stored analysis result owned by a different user for the C9 witness. -/
def otherOwnerItem : Item :=
  { createdAt := some "2026-01-01T00:00:00Z", dataType := "audio-analysis-result",
    userId := some "owner-A", audioAnalysisData := some (.vstr "PRIVATE") }

/-- Witness for C9: the non-owner caller gets not-found from both endpoints. -/
theorem claim_C9_witness :
    AudioApi.get_analysis_status parseNone 0 "S1" "intruder" false false
        [otherOwnerItem] = .notFound ("セッションが見つかりません: " ++ "S1") ∧
    AudioApi.get_analysis_results "S1" "intruder" false [otherOwnerItem] =
      .notFound ("セッションが見つかりません: " ++ "S1") :=
  claim_C9_ownership_isolation.1 parseNone 0 "S1" "intruder" false [otherOwnerItem]
    otherOwnerItem (by decide) rfl (by decide)

/-- Shape of `start_handler`'s error payload. -/
theorem startErrorPayload_spec (ev : List (String × Val)) (msg : String) :
    pget (Pipeline.startErrorPayload ev msg) "success" = some (.vbool false) ∧
    pget (Pipeline.startErrorPayload ev msg) "error" = some (.vstr msg) ∧
    pget (Pipeline.startErrorPayload ev msg) "errorType" =
      some (.vstr "StartAnalysisError") := by
  refine ⟨?_, ?_, ?_⟩ <;> simp [Pipeline.startErrorPayload, pget, List.find?]

/-- Shape of the merged three-field error payload used by the transcribe and
process handlers. -/
theorem mergedError_spec (ev : List (String × Val)) (msg ty : String) :
    pget (pset (pset (pset ev "success" (.vbool false)) "error" (.vstr msg))
        "errorType" (.vstr ty)) "success" = some (.vbool false) ∧
    pget (pset (pset (pset ev "success" (.vbool false)) "error" (.vstr msg))
        "errorType" (.vstr ty)) "error" = some (.vstr msg) ∧
    pget (pset (pset (pset ev "success" (.vbool false)) "error" (.vstr msg))
        "errorType" (.vstr ty)) "errorType" = some (.vstr ty) := by
  refine ⟨?_, ?_, ?_⟩
  · rw [pget_pset_ne _ _ _ _ (by decide), pget_pset_ne _ _ _ _ (by decide),
      pget_pset_self]
  · rw [pget_pset_ne _ _ _ _ (by decide), pget_pset_self]
  · rw [pget_pset_self]

/-- Shape of the merged four-field error payload of the check handler's
top-level exception clause. -/
theorem checkError_spec (ev : List (String × Val)) (msg : String) :
    pget (pset (pset (pset (pset ev "success" (.vbool false)) "jobStatus"
        (.vstr "FAILED")) "error" (.vstr msg)) "errorType"
        (.vstr "TranscribeCheckError")) "success" = some (.vbool false) ∧
    pget (pset (pset (pset (pset ev "success" (.vbool false)) "jobStatus"
        (.vstr "FAILED")) "error" (.vstr msg)) "errorType"
        (.vstr "TranscribeCheckError")) "error" = some (.vstr msg) ∧
    pget (pset (pset (pset (pset ev "success" (.vbool false)) "jobStatus"
        (.vstr "FAILED")) "error" (.vstr msg)) "errorType"
        (.vstr "TranscribeCheckError")) "errorType" =
      some (.vstr "TranscribeCheckError") := by
  refine ⟨?_, ?_, ?_⟩
  · rw [pget_pset_ne _ _ _ _ (by decide), pget_pset_ne _ _ _ _ (by decide),
      pget_pset_ne _ _ _ _ (by decide), pget_pset_self]
  · rw [pget_pset_ne _ _ _ _ (by decide), pget_pset_self]
  · rw [pget_pset_self]

/-- Shape of the check handler's job-not-found payload: `jobStatus`, `error`
and `errorType` are set but the input's `success` binding is untouched. -/
theorem jobNotFound_spec (ev : List (String × Val)) (msg : String) :
    pget (pset (pset (pset ev "jobStatus" (.vstr "FAILED")) "error" (.vstr msg))
        "errorType" (.vstr "JobNotFound")) "success" = pget ev "success" ∧
    pget (pset (pset (pset ev "jobStatus" (.vstr "FAILED")) "error" (.vstr msg))
        "errorType" (.vstr "JobNotFound")) "error" = some (.vstr msg) ∧
    pget (pset (pset (pset ev "jobStatus" (.vstr "FAILED")) "error" (.vstr msg))
        "errorType" (.vstr "JobNotFound")) "errorType" = some (.vstr "JobNotFound") ∧
    pget (pset (pset (pset ev "jobStatus" (.vstr "FAILED")) "error" (.vstr msg))
        "errorType" (.vstr "JobNotFound")) "jobStatus" = some (.vstr "FAILED") := by
  refine ⟨?_, ?_, ?_, ?_⟩
  · rw [pget_pset_ne _ _ _ _ (by decide), pget_pset_ne _ _ _ _ (by decide),
      pget_pset_ne _ _ _ _ (by decide)]
  · rw [pget_pset_ne _ _ _ _ (by decide), pget_pset_self]
  · rw [pget_pset_self]
  · rw [pget_pset_ne _ _ _ _ (by decide), pget_pset_ne _ _ _ _ (by decide),
      pget_pset_self]

/-- Shape of `save_handler`'s error payload. -/
theorem saveError_spec (ev : List (String × Val)) (msg : String) :
    pget [("success", Val.vbool false), ("error", Val.vstr msg),
        ("sessionId", pgetV ev "sessionId"), ("errorType", Val.vstr "SaveResultsError")]
      "success" = some (.vbool false) ∧
    pget [("success", Val.vbool false), ("error", Val.vstr msg),
        ("sessionId", pgetV ev "sessionId"), ("errorType", Val.vstr "SaveResultsError")]
      "error" = some (.vstr msg) ∧
    pget [("success", Val.vbool false), ("error", Val.vstr msg),
        ("sessionId", pgetV ev "sessionId"), ("errorType", Val.vstr "SaveResultsError")]
      "errorType" = some (.vstr "SaveResultsError") := by
  refine ⟨?_, ?_, ?_⟩ <;> simp [pget, List.find?]

/-- C5 (amended): every failure of the start, transcribe, check and save
handlers that reaches the handler's top-level exception clause is returned (not
thrown) as a payload with `success: false`, the failure's message under
`error`, and the stage's errorType tag (StartAnalysisError,
TranscribeStartError, TranscribeCheckError, SaveResultsError); the one
exception is the check handler's job-not-found branch, which returns
`errorType: JobNotFound` with `jobStatus: FAILED` and an error message but
leaves the input payload's `success` binding unchanged. -/
theorem claim_C5_stage_error_payloads :
    (∀ (nowStr : String) (nowEpoch : Int) (headOk : Except String Unit)
       (scen : Except String Bool) (pF : Bool) (ev : List (String × Val))
       (tbl : List Item),
      (¬(ptruthy ev "audioKey" && ptruthy ev "sessionId" && ptruthy ev "scenarioId" &&
          ptruthy ev "userId") = true ∨ (∃ m, headOk = .error m) ∨
        (∃ m, scen = .error m) ∨ scen = .ok false) →
      pget (Pipeline.start_handler nowStr nowEpoch headOk scen pF ev tbl).1 "success" =
        some (.vbool false) ∧
      (∃ m, pget (Pipeline.start_handler nowStr nowEpoch headOk scen pF ev tbl).1 "error" =
        some (.vstr m)) ∧
      pget (Pipeline.start_handler nowStr nowEpoch headOk scen pF ev tbl).1 "errorType" =
        some (.vstr "StartAnalysisError")) ∧
    (∀ (bucket nowStr : String) (sj : Except String Unit) (updF : Bool)
       (ev : List (String × Val)) (tbl : List Item),
      (¬(ptruthy ev "sessionId" && ptruthy ev "audioKey" &&
          ptruthy ev "transcribeJobName") = true ∨ ∃ m, sj = .error m) →
      pget (Pipeline.transcribe_handler bucket nowStr sj updF ev tbl).1 "success" =
        some (.vbool false) ∧
      (∃ m, pget (Pipeline.transcribe_handler bucket nowStr sj updF ev tbl).1 "error" =
        some (.vstr m)) ∧
      pget (Pipeline.transcribe_handler bucket nowStr sj updF ev tbl).1 "errorType" =
        some (.vstr "TranscribeStartError")) ∧
    (∀ (nowStr : String) (gj : Pipeline.JobRes) (updF : Bool)
       (ev : List (String × Val)) (tbl : List Item),
      (¬(ptruthy ev "sessionId" && ptruthy ev "transcribeJobName") = true ∨
        ∃ m, gj = .err m) →
      pget (Pipeline.check_handler nowStr gj updF ev tbl).1 "success" =
        some (.vbool false) ∧
      (∃ m, pget (Pipeline.check_handler nowStr gj updF ev tbl).1 "error" =
        some (.vstr m)) ∧
      pget (Pipeline.check_handler nowStr gj updF ev tbl).1 "errorType" =
        some (.vstr "TranscribeCheckError")) ∧
    (∀ (nowStr gjm : String) (updF : Bool) (ev : List (String × Val)) (tbl : List Item),
      (ptruthy ev "sessionId" && ptruthy ev "transcribeJobName") = true →
      pget (Pipeline.check_handler nowStr (.badRequest gjm) updF ev tbl).1 "success" =
        pget ev "success" ∧
      (∃ m, pget (Pipeline.check_handler nowStr (.badRequest gjm) updF ev tbl).1 "error" =
        some (.vstr m)) ∧
      pget (Pipeline.check_handler nowStr (.badRequest gjm) updF ev tbl).1 "errorType" =
        some (.vstr "JobNotFound") ∧
      pget (Pipeline.check_handler nowStr (.badRequest gjm) updF ev tbl).1 "jobStatus" =
        some (.vstr "FAILED")) ∧
    (∀ (nowStr : String) (nowEpoch : Int) (pr : Except String Unit) (dF : Bool)
       (ev : List (String × Val)) (tbl : List Item),
      (¬(ptruthy ev "sessionId" && ptruthy ev "userId" && ptruthy ev "scenarioId" &&
          ptruthy ev "audioAnalysisResult") = true ∨ ∃ m, pr = .error m) →
      pget (Pipeline.save_handler nowStr nowEpoch pr dF ev tbl).1 "success" =
        some (.vbool false) ∧
      (∃ m, pget (Pipeline.save_handler nowStr nowEpoch pr dF ev tbl).1 "error" =
        some (.vstr m)) ∧
      pget (Pipeline.save_handler nowStr nowEpoch pr dF ev tbl).1 "errorType" =
        some (.vstr "SaveResultsError")) := by
  refine ⟨?_, ?_, ?_, ?_, ?_⟩
  · intro nowStr nowEpoch headOk scen pF ev tbl hfail
    by_cases hv : (ptruthy ev "audioKey" && ptruthy ev "sessionId" &&
        ptruthy ev "scenarioId" && ptruthy ev "userId") = true
    · unfold Pipeline.start_handler
      rw [if_neg (not_not_intro hv)]
      cases headOk with
      | error m =>
        have h := startErrorPayload_spec ev
          ("音声ファイルが見つかりません: " ++ asStr (pgetV ev "audioKey"))
        exact ⟨h.1, ⟨_, h.2.1⟩, h.2.2⟩
      | ok u =>
        cases scen with
        | error m =>
          have h := startErrorPayload_spec ev ("シナリオ検証に失敗しました: " ++ m)
          exact ⟨h.1, ⟨_, h.2.1⟩, h.2.2⟩
        | ok b =>
          cases b with
          | false =>
            have h := startErrorPayload_spec ev
              ("シナリオ検証に失敗しました: シナリオが見つかりません: " ++
                asStr (pgetV ev "scenarioId"))
            exact ⟨h.1, ⟨_, h.2.1⟩, h.2.2⟩
          | true =>
            exfalso
            rcases hfail with h | ⟨m, hm⟩ | ⟨m, hm⟩ | hm
            · exact h hv
            · exact Except.noConfusion hm
            · exact Except.noConfusion hm
            · exact Bool.noConfusion (Except.ok.inj hm)
    · unfold Pipeline.start_handler
      rw [if_pos hv]
      have h := startErrorPayload_spec ev "audioKey, sessionId, scenarioId, userIdが必要です"
      exact ⟨h.1, ⟨_, h.2.1⟩, h.2.2⟩
  · intro bucket nowStr sj updF ev tbl hfail
    by_cases hv : (ptruthy ev "sessionId" && ptruthy ev "audioKey" &&
        ptruthy ev "transcribeJobName") = true
    · unfold Pipeline.transcribe_handler
      dsimp only
      rw [if_neg (not_not_intro hv)]
      cases sj with
      | error m =>
        have h := mergedError_spec ev m "TranscribeStartError"
        exact ⟨h.1, ⟨_, h.2.1⟩, h.2.2⟩
      | ok u =>
        exfalso
        rcases hfail with h | ⟨m, hm⟩
        · exact h hv
        · exact Except.noConfusion hm
    · unfold Pipeline.transcribe_handler
      dsimp only
      rw [if_pos hv]
      have h := mergedError_spec ev "sessionId, audioKey, transcribeJobNameが必要です"
        "TranscribeStartError"
      exact ⟨h.1, ⟨_, h.2.1⟩, h.2.2⟩
  · intro nowStr gj updF ev tbl hfail
    by_cases hv : (ptruthy ev "sessionId" && ptruthy ev "transcribeJobName") = true
    · unfold Pipeline.check_handler
      dsimp only
      rw [if_neg (not_not_intro hv)]
      cases gj with
      | err m =>
        have h := checkError_spec ev m
        exact ⟨h.1, ⟨_, h.2.1⟩, h.2.2⟩
      | badRequest m =>
        exfalso
        rcases hfail with h | ⟨m', hm⟩
        · exact h hv
        · exact Pipeline.JobRes.noConfusion hm
      | ok j =>
        exfalso
        rcases hfail with h | ⟨m', hm⟩
        · exact h hv
        · exact Pipeline.JobRes.noConfusion hm
    · unfold Pipeline.check_handler
      dsimp only
      rw [if_pos hv]
      have h := checkError_spec ev "sessionId, transcribeJobNameが必要です"
      exact ⟨h.1, ⟨_, h.2.1⟩, h.2.2⟩
  · intro nowStr gjm updF ev tbl hv
    unfold Pipeline.check_handler
    dsimp only
    rw [if_neg (not_not_intro hv)]
    have h := jobNotFound_spec ev
      ("Transcribeジョブが見つかりません: " ++ asStr (pgetV ev "transcribeJobName"))
    exact ⟨h.1, ⟨_, h.2.1⟩, h.2.2.1, h.2.2.2⟩
  · intro nowStr nowEpoch pr dF ev tbl hfail
    by_cases hv : (ptruthy ev "sessionId" && ptruthy ev "userId" &&
        ptruthy ev "scenarioId" && ptruthy ev "audioAnalysisResult") = true
    · unfold Pipeline.save_handler
      dsimp only
      rw [if_neg (not_not_intro hv)]
      cases pr with
      | error m =>
        have h := saveError_spec ev m
        exact ⟨h.1, ⟨_, h.2.1⟩, h.2.2⟩
      | ok u =>
        exfalso
        rcases hfail with h | ⟨m, hm⟩
        · exact h hv
        · exact Except.noConfusion hm
    · unfold Pipeline.save_handler
      dsimp only
      rw [if_pos hv]
      have h := saveError_spec ev "sessionId, userId, scenarioId, audioAnalysisResultが必要です"
      exact ⟨h.1, ⟨_, h.2.1⟩, h.2.2⟩

/-- A valid save-stage event for the C5 witness. -/
def evSave : List (String × Val) :=
  [("sessionId", .vstr "S"), ("userId", .vstr "U"), ("scenarioId", .vstr "C"),
   ("audioAnalysisResult", .vdict [("x", .vint 1)])]

/-- A valid transcribe-stage event for the C5 witness. -/
def evTrans : List (String × Val) :=
  [("sessionId", .vstr "S"), ("audioKey", .vstr "a.mp3"),
   ("transcribeJobName", .vstr "J")]

/-- Witness for C5: a failing result save and a failing transcription start
both come back as `success: false` payloads tagged with their stage. -/
theorem claim_C5_witness :
    pget (Pipeline.save_handler "T" 0 (.error "dynamo down") false evSave []).1
      "success" = some (.vbool false) ∧
    pget (Pipeline.save_handler "T" 0 (.error "dynamo down") false evSave []).1
      "errorType" = some (.vstr "SaveResultsError") ∧
    pget (Pipeline.transcribe_handler "B" "T" (.error "boom") false evTrans []).1
      "success" = some (.vbool false) ∧
    pget (Pipeline.transcribe_handler "B" "T" (.error "boom") false evTrans []).1
      "errorType" = some (.vstr "TranscribeStartError") :=
  ⟨(claim_C5_stage_error_payloads.2.2.2.2 "T" 0 (.error "dynamo down") false evSave []
      (Or.inr ⟨"dynamo down", rfl⟩)).1,
    (claim_C5_stage_error_payloads.2.2.2.2 "T" 0 (.error "dynamo down") false evSave []
      (Or.inr ⟨"dynamo down", rfl⟩)).2.2,
    (claim_C5_stage_error_payloads.2.1 "B" "T" (.error "boom") false evTrans []
      (Or.inr ⟨"boom", rfl⟩)).1,
    (claim_C5_stage_error_payloads.2.1 "B" "T" (.error "boom") false evTrans []
      (Or.inr ⟨"boom", rfl⟩)).2.2⟩

/-- An event whose `success` flag is still true from the previous stage. -/
def evJob : List (String × Val) :=
  [("success", .vbool true), ("sessionId", .vstr "S"), ("transcribeJobName", .vstr "J")]

/-- Counterexample to C5 as stated: on a `BadRequestException` (transcription
job not found), the check handler returns an error payload tagged
`JobNotFound` whose `success` flag is still `true` (inherited from the input),
refuting "for every internal failure the returned payload contains
success: false". -/
theorem claim_C5_counterexample :
    pget (Pipeline.check_handler "T" (.badRequest "nf") false evJob []).1 "success" =
      some (.vbool true) ∧
    pget (Pipeline.check_handler "T" (.badRequest "nf") false evJob []).1 "errorType" =
      some (.vstr "JobNotFound") := by
  constructor <;> decide

/-- C6 (amended): payload monotonicity holds for the transcribe, check and
process handlers — on every path (success or failure) each key of the input
event is still present in the output, since these handlers merge into
`{**event, ...}` — but not for the start and save handlers, which build fresh
fixed-key payloads: on success the save handler returns exactly
`success, sessionId, resultsSaved, completedTime` (dropping, e.g., `userId`
and `audioAnalysisResult`) and the start handler returns exactly its nine
documented keys. -/
theorem claim_C6_payload_monotonicity :
    (∀ (bucket nowStr : String) (sj : Except String Unit) (updF : Bool)
       (ev : List (String × Val)) (tbl : List Item) (k : String),
      (pget ev k).isSome = true →
      (pget (Pipeline.transcribe_handler bucket nowStr sj updF ev tbl).1 k).isSome = true) ∧
    (∀ (nowStr : String) (gj : Pipeline.JobRes) (updF : Bool)
       (ev : List (String × Val)) (tbl : List Item) (k : String),
      (pget ev k).isSome = true →
      (pget (Pipeline.check_handler nowStr gj updF ev tbl).1 k).isSome = true) ∧
    (∀ (nowStr : String) (dl an : Except String Val) (updF : Bool)
       (ev : List (String × Val)) (tbl : List Item) (k : String),
      (pget ev k).isSome = true →
      (pget (Pipeline.process_handler nowStr dl an updF ev tbl).1 k).isSome = true) ∧
    (∀ (nowStr : String) (nowEpoch : Int) (delF : Bool) (ev : List (String × Val))
       (tbl : List Item),
      (ptruthy ev "sessionId" && ptruthy ev "userId" && ptruthy ev "scenarioId" &&
        ptruthy ev "audioAnalysisResult") = true →
      pkeys (Pipeline.save_handler nowStr nowEpoch (.ok ()) delF ev tbl).1 =
        ["success", "sessionId", "resultsSaved", "completedTime"]) ∧
    (∀ (nowStr : String) (nowEpoch : Int) (pF : Bool) (ev : List (String × Val))
       (tbl : List Item),
      (ptruthy ev "audioKey" && ptruthy ev "sessionId" && ptruthy ev "scenarioId" &&
        ptruthy ev "userId") = true →
      pkeys (Pipeline.start_handler nowStr nowEpoch (.ok ()) (.ok true) pF ev tbl).1 =
        ["success", "sessionId", "audioKey", "scenarioId", "language", "userId",
         "transcribeJobName", "validated", "startTime"]) := by
  refine ⟨?_, ?_, ?_, ?_, ?_⟩
  · intro bucket nowStr sj updF ev tbl k h
    unfold Pipeline.transcribe_handler
    dsimp only
    repeat' split
    all_goals
      first
        | exact pget_pset_isSome _ _ _ _ (pget_pset_isSome _ _ _ _ h)
        | exact pget_pset_isSome _ _ _ _ (pget_pset_isSome _ _ _ _
            (pget_pset_isSome _ _ _ _ h))
  · intro nowStr gj updF ev tbl k h
    unfold Pipeline.check_handler
    dsimp only
    repeat' split
    all_goals
      first
        | exact pget_pset_isSome _ _ _ _ (pget_pset_isSome _ _ _ _ h)
        | exact pget_pset_isSome _ _ _ _ (pget_pset_isSome _ _ _ _
            (pget_pset_isSome _ _ _ _ h))
        | exact pget_pset_isSome _ _ _ _ (pget_pset_isSome _ _ _ _
            (pget_pset_isSome _ _ _ _ (pget_pset_isSome _ _ _ _ h)))
  · intro nowStr dl an updF ev tbl k h
    unfold Pipeline.process_handler
    dsimp only
    repeat' split
    all_goals
      first
        | exact pget_pset_isSome _ _ _ _ (pget_pset_isSome _ _ _ _ h)
        | exact pget_pset_isSome _ _ _ _ (pget_pset_isSome _ _ _ _
            (pget_pset_isSome _ _ _ _ h))
  · intro nowStr nowEpoch delF ev tbl hv
    unfold Pipeline.save_handler
    dsimp only
    rw [if_neg (not_not_intro hv)]
    rfl
  · intro nowStr nowEpoch pF ev tbl hv
    unfold Pipeline.start_handler
    rw [if_neg (not_not_intro hv)]
    rfl

/-- Witness for C6: the check handler keeps an input key through a completed
poll, and the save handler's success payload has exactly its four fixed keys. -/
theorem claim_C6_witness :
    (pget (Pipeline.check_handler "T"
        (.ok { status := "COMPLETED", transcriptFileUri := some "s3://t/x.json" })
        false evJob []).1 "transcribeJobName").isSome = true ∧
    pkeys (Pipeline.save_handler "T" 0 (.ok ()) false evSave []).1 =
      ["success", "sessionId", "resultsSaved", "completedTime"] :=
  ⟨claim_C6_payload_monotonicity.2.1 "T"
      (.ok { status := "COMPLETED", transcriptFileUri := some "s3://t/x.json" })
      false evJob [] "transcribeJobName" (by decide),
    claim_C6_payload_monotonicity.2.2.2.1 "T" 0 false evSave [] (by decide)⟩

/-- Counterexample to C6 as stated: the save handler succeeds on a valid event
that contains `userId`, yet its output payload no longer contains `userId`
(nor `scenarioId` or `audioAnalysisResult`) — the output is not a superset of
the input. -/
theorem claim_C6_counterexample :
    pget evSave "userId" = some (.vstr "U") ∧
    pget (Pipeline.save_handler "T" 0 (.ok ()) false evSave []).1 "success" =
      some (.vbool true) ∧
    pget (Pipeline.save_handler "T" 0 (.ok ()) false evSave []).1 "userId" = none ∧
    pget (Pipeline.save_handler "T" 0 (.ok ()) false evSave []).1 "audioAnalysisResult" =
      none := by
  refine ⟨by decide, by decide, by decide, by decide⟩
